import Mathlib

/-!
Verification development for the atlas-cli manifest provenance engine.

This file shallowly embeds the manifest creation / linking / verification
logic of the repository (src/manifest/*.rs, src/hash/*.rs, src/storage/*.rs)
into Lean and proves the specification claims about it.

Modelling conventions:
* Bytes are `Nat` (each value below 256 where produced by the embedded code);
  files are finite byte lists.  SHA-256 is implemented concretely (FIPS 180-4)
  so that digests compute inside Lean; the repository consumes it through the
  `sha2` crate whose contract is exactly "digest of the bytes fed, in order".
* Rust `Result<T, Error>` becomes `Except Err T` with `Err` mirroring the
  repository's `error::types::Error` enum.
* Non-determinism of the real code (UUIDs, timestamps) is supplied by an
  explicit `Oracle`; the ambient file system, key loading, CBOR serialization
  and the external signer are supplied by an explicit `Env`.
* The storage backend is modelled by its CRUD contract (spec section 4.7):
  an association list with last-write-wins store, keyed by `instance_id`.
-/

set_option maxRecDepth 100000

namespace AtlasCli

/-! ## SHA-256 (FIPS 180-4) over byte lists -/

/-- Truncation to a 32-bit word. -/
def w32 (n : Nat) : Nat := n % 4294967296

/-- Right rotation of a 32-bit word. -/
def rotr32 (n x : Nat) : Nat := w32 ((x >>> n) ||| (x <<< (32 - n)))

/-- SHA-256 choice function; the complement of `x` is `2^32 - 1 - x`. -/
def shaCh (x y z : Nat) : Nat := (x &&& y) ^^^ ((4294967295 - x) &&& z)

/-- SHA-256 majority function. -/
def shaMaj (x y z : Nat) : Nat := (x &&& y) ^^^ (x &&& z) ^^^ (y &&& z)

/-- SHA-256 Σ₀. -/
def bigSigma0 (x : Nat) : Nat := rotr32 2 x ^^^ rotr32 13 x ^^^ rotr32 22 x

/-- SHA-256 Σ₁. -/
def bigSigma1 (x : Nat) : Nat := rotr32 6 x ^^^ rotr32 11 x ^^^ rotr32 25 x

/-- SHA-256 σ₀. -/
def smallSigma0 (x : Nat) : Nat := rotr32 7 x ^^^ rotr32 18 x ^^^ (x >>> 3)

/-- SHA-256 σ₁. -/
def smallSigma1 (x : Nat) : Nat := rotr32 17 x ^^^ rotr32 19 x ^^^ (x >>> 10)

/-- SHA-256 round constants. -/
def shaK : List Nat :=
  [1116352408, 1899447441, 3049323471, 3921009573, 961987163, 1508970993,
   2453635748, 2870763221, 3624381080, 310598401, 607225278, 1426881987,
   1925078388, 2162078206, 2614888103, 3248222580, 3835390401, 4022224774,
   264347078, 604807628, 770255983, 1249150122, 1555081692, 1996064986,
   2554220882, 2821834349, 2952996808, 3210313671, 3336571891, 3584528711,
   113926993, 338241895, 666307205, 773529912, 1294757372, 1396182291,
   1695183700, 1986661051, 2177026350, 2456956037, 2730485921, 2820302411,
   3259730800, 3345764771, 3516065817, 3600352804, 4094571909, 275423344,
   430227734, 506948616, 659060556, 883997877, 958139571, 1322822218,
   1537002063, 1747873779, 1955562222, 2024104815, 2227730452, 2361852424,
   2428436474, 2756734187, 3204031479, 3329325298]

/-- SHA-256 working state: eight 32-bit words. -/
structure Hash8 where
  a : Nat
  b : Nat
  c : Nat
  d : Nat
  e : Nat
  f : Nat
  g : Nat
  h : Nat
deriving DecidableEq

/-- SHA-256 initial state. -/
def shaInit : Hash8 :=
  ⟨1779033703, 3144134277, 1013904242, 2773480762,
   1359893119, 2600822924, 528734635, 1541459225⟩

/-- Fuel-driven splitting of a list into chunks of `n` elements. -/
def chunksFuel (n : Nat) : Nat → List α → List (List α)
  | 0, _ => []
  | _, [] => []
  | fuel + 1, l => l.take n :: chunksFuel n fuel (l.drop n)

/-- Split a list into consecutive chunks of `n` elements (last may be short).
With `l.length` as fuel this is total and fuel never runs out. -/
def chunkList (n : Nat) (l : List α) : List (List α) := chunksFuel n l.length l

/-- Big-endian word from a byte list. -/
def beWord (bytes : List Nat) : Nat := bytes.foldl (fun acc b => acc * 256 + b) 0

/-- The `k` low-order bytes of `n`, big-endian. -/
def natToBytesBE : Nat → Nat → List Nat
  | 0, _ => []
  | k + 1, n => natToBytesBE k (n / 256) ++ [n % 256]

/-- SHA-256 padding: `0x80`, zeros to 56 mod 64, then the 64-bit bit length. -/
def shaPad (msg : List Nat) : List Nat :=
  msg ++ 128 :: List.replicate ((119 - msg.length % 64) % 64) 0 ++ natToBytesBE 8 (8 * msg.length)

/-- Message-schedule expansion with the 16-word sliding window carried in
separate arguments; `acc` accumulates all words in reverse. -/
def schedGo : Nat → Nat → Nat → Nat → Nat → Nat → Nat → Nat → Nat → Nat → Nat → Nat →
    Nat → Nat → Nat → Nat → Nat → List Nat → List Nat
  | 0, _, _, _, _, _, _, _, _, _, _, _, _, _, _, _, _, acc => acc.reverse
  | f + 1, w0, w1, w2, w3, w4, w5, w6, w7, w8, w9, w10, w11, w12, w13, w14, w15, acc =>
    let n := w32 (smallSigma1 w14 + w9 + smallSigma0 w1 + w0)
    schedGo f w1 w2 w3 w4 w5 w6 w7 w8 w9 w10 w11 w12 w13 w14 w15 n (n :: acc)
termination_by structural f => f

/-- The 64-entry message schedule of one 16-word block. -/
def schedule (ws : List Nat) : List Nat :=
  match ws with
  | [w0, w1, w2, w3, w4, w5, w6, w7, w8, w9, w10, w11, w12, w13, w14, w15] =>
    schedGo 48 w0 w1 w2 w3 w4 w5 w6 w7 w8 w9 w10 w11 w12 w13 w14 w15
      [w15, w14, w13, w12, w11, w10, w9, w8, w7, w6, w5, w4, w3, w2, w1, w0]
  | _ => []

/-- One SHA-256 round. -/
def compressStep (s : Hash8) (kw : Nat × Nat) : Hash8 :=
  let t1 := w32 (s.h + bigSigma1 s.e + shaCh s.e s.f s.g + kw.1 + kw.2)
  let t2 := w32 (bigSigma0 s.a + shaMaj s.a s.b s.c)
  ⟨w32 (t1 + t2), s.a, s.b, s.c, w32 (s.d + t1), s.e, s.f, s.g⟩

/-- SHA-256 compression of one 64-byte block. -/
def compressBlock (s : Hash8) (block : List Nat) : Hash8 :=
  let ws := schedule ((chunkList 4 block).map beWord)
  let t := (shaK.zip ws).foldl compressStep s
  ⟨w32 (s.a + t.a), w32 (s.b + t.b), w32 (s.c + t.c), w32 (s.d + t.d),
   w32 (s.e + t.e), w32 (s.f + t.f), w32 (s.g + t.g), w32 (s.h + t.h)⟩

/-- SHA-256 digest (32 bytes) of a byte list. -/
def sha256 (msg : List Nat) : List Nat :=
  let s := (chunkList 64 (shaPad msg)).foldl compressBlock shaInit
  natToBytesBE 4 s.a ++ natToBytesBE 4 s.b ++ natToBytesBE 4 s.c ++ natToBytesBE 4 s.d ++
  natToBytesBE 4 s.e ++ natToBytesBE 4 s.f ++ natToBytesBE 4 s.g ++ natToBytesBE 4 s.h

/-! ## Hex, UTF-8, base64 and small string helpers -/

/-- Lower-case hex digit of a value below 16. -/
def hexDigitChar (n : Nat) : Char := if n < 10 then Char.ofNat (48 + n) else Char.ofNat (87 + n)

/-- Lower-case hex encoding of a byte list, as produced by `hex::encode`. -/
def hexEncode (bytes : List Nat) : String :=
  String.mk (bytes.foldr (fun b acc => hexDigitChar (b / 16) :: hexDigitChar (b % 16) :: acc) [])

/-- Value of one hex digit, accepting both cases, as `hex::decode` does. -/
def hexVal (c : Char) : Option Nat :=
  if 48 ≤ c.toNat ∧ c.toNat ≤ 57 then some (c.toNat - 48)
  else if 97 ≤ c.toNat ∧ c.toNat ≤ 102 then some (c.toNat - 87)
  else if 65 ≤ c.toNat ∧ c.toNat ≤ 70 then some (c.toNat - 55)
  else none

/-- Pairwise hex decoding, failing on odd length or non-hex characters, as
`hex::decode` does (the message stands in for `hex::FromHexError`). -/
def hexDecodeChars : List Char → Except String (List Nat)
  | [] => .ok []
  | [_] => .error "Odd number of digits"
  | c1 :: c2 :: rest =>
    match hexVal c1, hexVal c2, hexDecodeChars rest with
    | some h, some l, .ok bs => .ok ((16 * h + l) :: bs)
    | none, _, _ => .error ("Invalid character '" ++ String.mk [c1] ++ "'")
    | some _, none, _ => .error ("Invalid character '" ++ String.mk [c2] ++ "'")
    | some _, some _, .error e => .error e

/-- Hex decoding of a string. -/
def hexDecodeStr (s : String) : Except String (List Nat) := hexDecodeChars s.data

/-- UTF-8 encoding of one code point. -/
def utf8Char (n : Nat) : List Nat :=
  if n < 128 then [n]
  else if n < 2048 then [192 + n / 64, 128 + n % 64]
  else if n < 65536 then [224 + n / 4096, 128 + (n / 64) % 64, 128 + n % 64]
  else [240 + n / 262144, 128 + (n / 4096) % 64, 128 + (n / 64) % 64, 128 + n % 64]

/-- UTF-8 bytes of a string, matching Rust's `str::as_bytes`. -/
def strBytes (s : String) : List Nat := (s.data.map (fun c => utf8Char c.toNat)).flatten

/-- Character of the base64 standard alphabet. -/
def b64Char (n : Nat) : Char :=
  if n < 26 then Char.ofNat (65 + n)
  else if n < 52 then Char.ofNat (97 + n - 26)
  else if n < 62 then Char.ofNat (48 + n - 52)
  else if n = 62 then '+' else '/'

/-- Base64 encoding of one group of at most three bytes, with `=` padding. -/
def b64Group : List Nat → List Char
  | [a, b, c] => [b64Char (a / 4), b64Char (a % 4 * 16 + b / 16), b64Char (b % 16 * 4 + c / 64), b64Char (c % 64)]
  | [a, b] => [b64Char (a / 4), b64Char (a % 4 * 16 + b / 16), b64Char (b % 16 * 4), '=']
  | [a] => [b64Char (a / 4), b64Char (a % 4 * 16), '=', '=']
  | _ => []

/-- Base64 (standard alphabet, padded) encoding, as `base64::engine::general_purpose::STANDARD.encode`. -/
def base64Encode (bytes : List Nat) : String :=
  String.mk (((chunkList 3 bytes).map b64Group).flatten)

/-- ASCII lower-casing of one character. -/
def lowerChar (c : Char) : Char :=
  if 65 ≤ c.toNat ∧ c.toNat ≤ 90 then Char.ofNat (c.toNat + 32) else c

/-- ASCII lower-casing, as Rust `str::to_lowercase` behaves on the ASCII
format names this code compares against. -/
def toLowerAscii (s : String) : String := String.mk (s.data.map lowerChar)

/-- Does `s` start with `pre`?  Mirrors Rust `str::starts_with`. -/
def hasLeading (pre s : String) : Bool := s.data.take pre.data.length == pre.data

/-- Fuel-driven repeated removal of a leading occurrence of `pre`. -/
def dropLeadingFuel (pre : List Char) : Nat → List Char → List Char
  | 0, l => l
  | fuel + 1, l =>
    if pre ≠ [] ∧ l.take pre.length == pre then dropLeadingFuel pre fuel (l.drop pre.length) else l

/-- Repeatedly strip a leading occurrence of `pre`, as Rust
`str::trim_start_matches`; `s.length` fuel always suffices. -/
def dropLeadingAll (pre s : String) : String :=
  String.mk (dropLeadingFuel pre.data s.data.length s.data)

/-- Split a string at every occurrence of the character `c`, as Rust
`str::split(c)`: `n` separators yield `n + 1` pieces, empties included. -/
def splitCharGo (c : Char) : List Char → List Char → List String
  | [], acc => [String.mk acc.reverse]
  | x :: xs, acc =>
    if x = c then String.mk acc.reverse :: splitCharGo c xs [] else splitCharGo c xs (x :: acc)

/-- Split a string on a separator character. -/
def splitChar (c : Char) (s : String) : List String := splitCharGo c s.data []

/-- Insert into an association list with replace-or-append semantics, the
observable behaviour of map insertion used by the code (`HashMap::insert`,
`serde_json` object insert): a present key is overwritten, an absent key is
added. -/
def mapInsert (l : List (String × α)) (k : String) (v : α) : List (String × α) :=
  if l.any (fun kv => kv.1 == k) then l.map (fun kv => if kv.1 == k then (k, v) else kv)
  else l ++ [(k, v)]

/-! ## File paths

Rust `Path::extension` semantics: the portion of the file name after the
last `.`, unless there is no `.` or the only `.` is leading (hidden file). -/

/-- File-name component of a path: the part after the last `/`, ignoring
trailing slashes, as Rust `Path::file_name`. -/
def pathFileName (p : String) : String :=
  String.mk (((p.data.reverse.dropWhile (fun c => c = '/')).takeWhile (fun c => c ≠ '/')).reverse)

/-- Rust `Path::extension().and_then(|e| e.to_str())`. -/
def pathExtension (p : String) : Option String :=
  let f := (pathFileName p).data
  let tail := f.reverse.takeWhile (fun c => c ≠ '.')
  if tail.length = f.length then none
  else if f.length - tail.length - 1 = 0 then none
  else some (String.mk tail.reverse)

/-! ## JSON values

`serde_json::Value` restricted to the shapes this program constructs and
inspects (strings, null, objects); used for action parameters, custom
assertion payloads and `custom_fields`. -/

/-- JSON value: null, string, or object (field list in insertion order). -/
inductive JVal where
  | null
  | str (s : String)
  | obj (fields : List (String × JVal))

/-- Lookup of an object field, as `serde_json::Value::get`. -/
def JVal.get (v : JVal) (key : String) : Option JVal :=
  match v with
  | .obj fs => (fs.find? (fun kv => kv.1 == key)).map (fun kv => kv.2)
  | _ => none

/-- Insert a field into an object value (other values are left unchanged,
matching `as_object_mut` usage which only ever runs on objects). -/
def JVal.insert (v : JVal) (k : String) (x : JVal) : JVal :=
  match v with
  | .obj fs => .obj (mapInsert fs k x)
  | other => other

/-- String concatenation of a list with comma separators. -/
def joinComma : List String → String
  | [] => ""
  | [s] => s
  | s :: rest => s ++ "," ++ joinComma rest

/-- JSON string escaping as `serde_json` performs it. -/
def jsonEscapeChar (c : Char) : List Char :=
  if c = '"' then ['\\', '"']
  else if c = '\\' then ['\\', '\\']
  else if c = '\n' then ['\\', 'n']
  else if c = '\r' then ['\\', 'r']
  else if c = '\t' then ['\\', 't']
  else if c.toNat < 32 then
    ['\\', 'u', '0', '0', hexDigitChar (c.toNat / 16), hexDigitChar (c.toNat % 16)]
  else [c]

/-- A JSON string literal. -/
def jsonStr (s : String) : String :=
  "\"" ++ String.mk ((s.data.map jsonEscapeChar).flatten) ++ "\""

/-- Fuel-driven JSON rendering of a `JVal`; the fuel bounds nesting depth and
is generous far beyond anything the program builds. -/
def JVal.toJsonFuel : Nat → JVal → String
  | _, .null => "null"
  | _, .str s => jsonStr s
  | 0, .obj _ => ""
  | fuel + 1, .obj fs =>
    "\x7b" ++ joinComma (fs.map (fun kv => jsonStr kv.1 ++ ":" ++ JVal.toJsonFuel fuel kv.2)) ++ "\x7d"

/-- JSON rendering of a `JVal`. -/
def JVal.toJson (v : JVal) : String := JVal.toJsonFuel 1000 v

/-- JSON rendering of an optional string (absent becomes `null`). -/
def jsonOptStr : Option String → String
  | none => "null"
  | some s => jsonStr s

/-! ## Error type

Mirrors `error::types::Error`.  Payloads that are foreign error values in
Rust (`std::io::Error`, `hex::FromHexError`) are carried as their display
strings.  The extra `panicked` case marks the one place the source calls
`unwrap` on a fallible value (the attestation assertion), which in Rust
aborts instead of returning an error. -/

inductive Err where
  | io (msg : String)
  | storage (msg : String)
  | validation (msg : String)
  | manifest (msg : String)
  | signing (msg : String)
  | serialization (msg : String)
  | initializationError (msg : String)
  | hexDecode (msg : String)
  | ccAttestationError (msg : String)
  | json (msg : String)
  | panicked
deriving DecidableEq

/-- Decidable equality for `Except` results, used to evaluate concrete
runs of the embedded operations. -/
instance {ε α : Type} [DecidableEq ε] [DecidableEq α] : DecidableEq (Except ε α) := fun a b =>
  match a, b with
  | .ok x, .ok y =>
    if h : x = y then isTrue (by rw [h]) else isFalse (by intro hc; cases hc; exact h rfl)
  | .error x, .error y =>
    if h : x = y then isTrue (by rw [h]) else isFalse (by intro hc; cases hc; exact h rfl)
  | .ok _, .error _ => isFalse (by intro hc; cases hc)
  | .error _, .ok _ => isFalse (by intro hc; cases hc)

/-- Display form of an error, as the `thiserror` derive renders it. -/
def errToString : Err → String
  | .io m => "IO error: " ++ m
  | .storage m => "Storage error: " ++ m
  | .validation m => "Validation error: " ++ m
  | .manifest m => "Manifest error: " ++ m
  | .signing m => "Signing error: " ++ m
  | .serialization m => "Serialization error: " ++ m
  | .initializationError m => "Initialization error: " ++ m
  | .hexDecode m => "Hex decode error: " ++ m
  | .ccAttestationError m => "CC Attestation error: " ++ m
  | .json m => "JSON error: " ++ m
  | .panicked => "panicked"

/-! ## Content hasher (src/hash/mod.rs and src/hash/utils.rs) -/

/-- Hex SHA-256 of a byte list; embeds `hash::calculate_hash`. -/
def calculate_hash (data : List Nat) : String := hexEncode (sha256 data)

/-- Hex digest comparison; embeds `hash::verify_hash` (exact, case-sensitive
string equality). -/
def verify_hash (data : List Nat) (expected_hash : String) : Bool :=
  hexEncode (sha256 data) == expected_hash

/-- Running state of combining hashes; embeds the loop of
`hash::combine_hashes`, which feeds the decoded bytes of each input hash to
one hasher in list order and fails fast at the first malformed hex string. -/
def combineHashesGo : List String → List Nat → Except Err String
  | [], acc => .ok (hexEncode (sha256 acc))
  | h :: rest, acc =>
    match hexDecodeStr h with
    | .ok bytes => combineHashesGo rest (acc ++ bytes)
    | .error m => .error (.hexDecode m)

/-- Embeds `hash::combine_hashes`. -/
def combine_hashes (hashes : List String) : Except Err String := combineHashesGo hashes []

/-- One file-system entry: its readable content plus the metadata the
`utils::safe_file_path` security checks consult. -/
structure FileEntry where
  content : List Nat
  isSymlink : Bool
  nlink : Nat
deriving DecidableEq

/-- A file system: contents by path string.  `none` is a missing or
unreadable file. -/
def FS : Type := String → Option FileEntry

/-- Embeds `hash::calculate_file_hash` (src/hash/mod.rs): `File::open`, read
the whole file, hash it.  `File::open` follows symlinks, so the entry's
content is hashed regardless of its metadata. -/
def hash_calculate_file_hash (fs : FS) (path : String) : Except Err String :=
  match fs path with
  | some e => .ok (calculate_hash e.content)
  | none => .error (.io ("No such file or directory: " ++ path))

/-- Embeds `hash::utils::calculate_file_hash` (src/hash/utils.rs): open via
`utils::safe_open_file` (rejecting symlinks and multiply-hard-linked files),
then hash the file in 8192-byte chunks, feeding each chunk to the hasher. -/
def utils_calculate_file_hash (fs : FS) (path : String) : Except Err String :=
  match fs path with
  | none => .error (.io ("No such file or directory: " ++ path))
  | some e =>
    if e.isSymlink then
      .error (.validation ("Security error: Path " ++ path ++ " is a symlink, which is not allowed"))
    else if e.nlink > 1 then
      .error (.validation ("Security error: Path " ++ path ++ " has multiple hard links (" ++
        Nat.repr e.nlink ++ ")"))
    else .ok (hexEncode (sha256 ((chunkList 8192 e.content).flatten)))

/-! ## Data model (atlas-c2pa-lib types as used by this repository)

These are the external library's record types, reproduced field-for-field as
the repository constructs and reads them. -/

/-- Asset-kind tags (the `AssetType` variants this repository produces and
inspects). -/
inductive AssetType where
  | model
  | modelOnnx
  | modelTensorFlow
  | modelPytorch
  | modelOpenVino
  | modelKeras
  | modelJax
  | modelMlNet
  | modelMxNet
  | formatNumpy
  | formatProtobuf
  | formatPickle
  | dataset
  | datasetOnnx
  | datasetTensorFlow
  | datasetPytorch
  | datasetOpenVino
  | datasetKeras
  | datasetJax
  | datasetMlNet
  | datasetMxNet
  | generator
deriving DecidableEq

/-- An assertion author. -/
structure Author where
  author_type : String
  name : String
deriving DecidableEq

/-- One action inside an action assertion. -/
structure ActionItem where
  action : String
  software_agent : Option String
  parameters : Option JVal
  digital_source_type : Option String
  instance_id : Option String

/-- A claim assertion: creative work, action, or custom payload. -/
inductive Assertion where
  | creativeWork (context : String) (creative_type : String) (author : List Author)
  | action (actions : List ActionItem)
  | custom (label : String) (data : JVal)

/-- Ingredient content data. -/
structure IngredientData where
  url : String
  alg : String
  hash : String
  data_types : List AssetType
  linked_ingredient_url : Option String
  linked_ingredient_hash : Option String
deriving DecidableEq

/-- An ingredient record. -/
structure Ingredient where
  title : String
  format : String
  relationship : String
  document_id : String
  instance_id : String
  data : IngredientData
  linked_ingredient : Option String
  public_key : Option String
deriving DecidableEq

/-- A claim (the `ClaimV2` record). -/
structure ClaimV2 where
  instance_id : String
  ingredients : List Ingredient
  created_assertions : List Assertion
  claim_generator_info : String
  signature : Option String
  created_at : String

/-- A hash-pinned link to another manifest. -/
structure CrossReference where
  manifest_url : String
  manifest_hash : String
  media_type : Option String
deriving DecidableEq

/-- The top-level manifest envelope. -/
structure Manifest where
  claim_generator : String
  title : String
  instance_id : String
  ingredients : List Ingredient
  claim : ClaimV2
  created_at : String
  cross_references : List CrossReference
  claim_v2 : Option ClaimV2
  is_active : Bool

/-- Derived manifest kind (`storage::traits::ManifestType` as used by
`manifest::utils::determine_manifest_type`). -/
inductive ManifestType where
  | dataset
  | model
  | software
  | unknown
deriving DecidableEq

/-! ## Canonical JSON serialization of a manifest

Modelled from the spec: the "canonical serialization" boundary (spec
sections 3 and its glossary) — the byte-exact `serde_json::to_string`
encoding of a manifest, which lives in the external serde/atlas-c2pa-lib
crates.  Fields are rendered in declaration order; the enum tag strings for
`AssetType` stand in for the external crate's serde names.  Every claim
below uses this serialization only through its determinism and through
concrete computation, never through properties specific to the chosen
field tags. -/

/-- Serde tag of an asset type. -/
def assetTypeJson : AssetType → String
  | .model => "c2pa.types.model"
  | .modelOnnx => "c2pa.types.model.onnx"
  | .modelTensorFlow => "c2pa.types.model.tensorflow"
  | .modelPytorch => "c2pa.types.model.pytorch"
  | .modelOpenVino => "c2pa.types.model.openvino"
  | .modelKeras => "c2pa.types.model.keras"
  | .modelJax => "c2pa.types.model.jax"
  | .modelMlNet => "c2pa.types.model.mlnet"
  | .modelMxNet => "c2pa.types.model.mxnet"
  | .formatNumpy => "c2pa.types.format.numpy"
  | .formatProtobuf => "c2pa.types.format.protobuf"
  | .formatPickle => "c2pa.types.format.pickle"
  | .dataset => "c2pa.types.dataset"
  | .datasetOnnx => "c2pa.types.dataset.onnx"
  | .datasetTensorFlow => "c2pa.types.dataset.tensorflow"
  | .datasetPytorch => "c2pa.types.dataset.pytorch"
  | .datasetOpenVino => "c2pa.types.dataset.openvino"
  | .datasetKeras => "c2pa.types.dataset.keras"
  | .datasetJax => "c2pa.types.dataset.jax"
  | .datasetMlNet => "c2pa.types.dataset.mlnet"
  | .datasetMxNet => "c2pa.types.dataset.mxnet"
  | .generator => "c2pa.types.generator"

/-- JSON of an author. -/
def authorJson (a : Author) : String :=
  "\x7b\"author_type\":" ++ jsonStr a.author_type ++ ",\"name\":" ++ jsonStr a.name ++ "\x7d"

/-- JSON of an optional `JVal`. -/
def jsonOptVal : Option JVal → String
  | none => "null"
  | some v => v.toJson

/-- JSON of one action. -/
def actionItemJson (a : ActionItem) : String :=
  "\x7b\"action\":" ++ jsonStr a.action ++
  ",\"software_agent\":" ++ jsonOptStr a.software_agent ++
  ",\"parameters\":" ++ jsonOptVal a.parameters ++
  ",\"digital_source_type\":" ++ jsonOptStr a.digital_source_type ++
  ",\"instance_id\":" ++ jsonOptStr a.instance_id ++ "\x7d"

/-- JSON of an assertion (externally tagged enum form). -/
def assertionJson : Assertion → String
  | .creativeWork context creative_type author =>
    "\x7b\"CreativeWork\":\x7b\"context\":" ++ jsonStr context ++
    ",\"creative_type\":" ++ jsonStr creative_type ++
    ",\"author\":[" ++ joinComma (author.map authorJson) ++ "]\x7d\x7d"
  | .action actions =>
    "\x7b\"Action\":\x7b\"actions\":[" ++ joinComma (actions.map actionItemJson) ++ "]\x7d\x7d"
  | .custom label data =>
    "\x7b\"CustomAssertion\":\x7b\"label\":" ++ jsonStr label ++
    ",\"data\":" ++ data.toJson ++ "\x7d\x7d"

/-- JSON of ingredient data. -/
def ingredientDataJson (d : IngredientData) : String :=
  "\x7b\"url\":" ++ jsonStr d.url ++ ",\"alg\":" ++ jsonStr d.alg ++
  ",\"hash\":" ++ jsonStr d.hash ++
  ",\"data_types\":[" ++ joinComma (d.data_types.map (fun t => jsonStr (assetTypeJson t))) ++ "]" ++
  ",\"linked_ingredient_url\":" ++ jsonOptStr d.linked_ingredient_url ++
  ",\"linked_ingredient_hash\":" ++ jsonOptStr d.linked_ingredient_hash ++ "\x7d"

/-- JSON of an ingredient. -/
def ingredientJson (i : Ingredient) : String :=
  "\x7b\"title\":" ++ jsonStr i.title ++ ",\"format\":" ++ jsonStr i.format ++
  ",\"relationship\":" ++ jsonStr i.relationship ++
  ",\"document_id\":" ++ jsonStr i.document_id ++
  ",\"instance_id\":" ++ jsonStr i.instance_id ++
  ",\"data\":" ++ ingredientDataJson i.data ++
  ",\"linked_ingredient\":" ++ jsonOptStr i.linked_ingredient ++
  ",\"public_key\":" ++ jsonOptStr i.public_key ++ "\x7d"

/-- JSON of a claim. -/
def claimJson (c : ClaimV2) : String :=
  "\x7b\"instance_id\":" ++ jsonStr c.instance_id ++
  ",\"ingredients\":[" ++ joinComma (c.ingredients.map ingredientJson) ++ "]" ++
  ",\"created_assertions\":[" ++ joinComma (c.created_assertions.map assertionJson) ++ "]" ++
  ",\"claim_generator_info\":" ++ jsonStr c.claim_generator_info ++
  ",\"signature\":" ++ jsonOptStr c.signature ++
  ",\"created_at\":" ++ jsonStr c.created_at ++ "\x7d"

/-- JSON of an optional claim. -/
def jsonOptClaim : Option ClaimV2 → String
  | none => "null"
  | some c => claimJson c

/-- JSON of a cross-reference. -/
def crossReferenceJson (r : CrossReference) : String :=
  "\x7b\"manifest_url\":" ++ jsonStr r.manifest_url ++
  ",\"manifest_hash\":" ++ jsonStr r.manifest_hash ++
  ",\"media_type\":" ++ jsonOptStr r.media_type ++ "\x7d"

/-- Canonical JSON of a manifest (`serde_json::to_string`). -/
def manifestJson (m : Manifest) : String :=
  "\x7b\"claim_generator\":" ++ jsonStr m.claim_generator ++
  ",\"title\":" ++ jsonStr m.title ++
  ",\"instance_id\":" ++ jsonStr m.instance_id ++
  ",\"ingredients\":[" ++ joinComma (m.ingredients.map ingredientJson) ++ "]" ++
  ",\"claim\":" ++ claimJson m.claim ++
  ",\"created_at\":" ++ jsonStr m.created_at ++
  ",\"cross_references\":[" ++ joinComma (m.cross_references.map crossReferenceJson) ++ "]" ++
  ",\"claim_v2\":" ++ jsonOptClaim m.claim_v2 ++
  ",\"is_active\":" ++ (if m.is_active then "true" else "false") ++ "\x7d"

/-- Hex SHA-256 digest of a manifest's canonical JSON — the value the code
computes with `hex::encode(Sha256::digest(manifest_json.as_bytes()))`. -/
def manifestDigest (m : Manifest) : String := hexEncode (sha256 (strBytes (manifestJson m)))

/-! ## Storage abstraction (src/storage/traits.rs, spec section 4.7)

A backend is modelled by its CRUD contract: an association list keyed by
`instance_id`, storing with last-write-wins and retrieving the newest
binding.  A failed retrieval surfaces as a `Storage` error. -/

/-- Backend state. -/
def Storage : Type := List (String × Manifest)

/-- Embeds `StorageBackend::retrieve_manifest`. -/
def retrieveManifest (st : Storage) (id : String) : Except Err Manifest :=
  match List.lookup id st with
  | some m => .ok m
  | none => .error (.storage ("Manifest not found: " ++ id))

/-- Embeds `StorageBackend::store_manifest` (last write wins, keyed by the
manifest's `instance_id`, which is also the returned id). -/
def storeManifest (st : Storage) (m : Manifest) : Storage :=
  (m.instance_id, m) :: st

/-- Embeds `ArtifactLocation` (src/storage/traits.rs). -/
structure ArtifactLocation where
  url : String
  file_path : Option String
  hash : String

/-- Embeds `ArtifactLocation::verify`: recompute the file digest with
`hash::calculate_file_hash` and compare to the stored hash. -/
def artifactLocationVerify (fs : FS) (loc : ArtifactLocation) : Except Err Bool :=
  match loc.file_path with
  | some path =>
    match hash_calculate_file_hash fs path with
    | .ok current => .ok (current == loc.hash)
    | .error e => .error e
  | none => .error (.validation "No file path available for verification")

/-! ## Manifest-kind inference (src/manifest/utils.rs and the private
predicates of src/manifest/common.rs) -/

/-- Is this assertion a creative work of the given type? -/
def isCreativeOfType (t : String) : Assertion → Bool
  | .creativeWork _ creative_type _ => creative_type == t
  | _ => false

/-- Does some action of this assertion carry a `software_type` parameter? -/
def hasSoftwareTypeParam : Assertion → Bool
  | .action actions =>
    actions.any (fun a =>
      match a.parameters with
      | some params => (params.get "software_type").isSome
      | none => false)
  | _ => false

/-- The dataset-family asset tags `is_dataset_manifest` and
`determine_manifest_type` test for. -/
def isDatasetFamily : AssetType → Bool
  | .dataset | .datasetOnnx | .datasetTensorFlow | .datasetPytorch => true
  | _ => false

/-- The model-family asset tags `is_model_manifest` and
`determine_manifest_type` test for. -/
def isModelFamily : AssetType → Bool
  | .model | .modelOnnx | .modelTensorFlow | .modelPytorch | .modelOpenVino => true
  | _ => false

/-- The `Generator` tag test used for software classification. -/
def isGeneratorTag : AssetType → Bool
  | .generator => true
  | _ => false

/-- Does some ingredient carry a tag satisfying `p`? -/
def hasIngredientTag (m : Manifest) (p : AssetType → Bool) : Bool :=
  m.ingredients.any (fun i => i.data.data_types.any p)

/-- Embeds `is_evaluation_manifest` (the identical private helper of both
src/manifest/common.rs and src/manifest/evaluation.rs): an
`EvaluationResult` creative-work assertion in `claim_v2`. -/
def is_evaluation_manifest (m : Manifest) : Bool :=
  match m.claim_v2 with
  | some claim => claim.created_assertions.any (isCreativeOfType "EvaluationResult")
  | none => false

/-- Embeds `is_dataset_manifest` (src/manifest/common.rs): an evaluation
manifest is never a dataset; otherwise dataset-family ingredients or a
`Dataset` creative-work assertion in `claim_v2`. -/
def is_dataset_manifest (m : Manifest) : Bool :=
  if is_evaluation_manifest m then false
  else
    let has_dataset_ingredients := hasIngredientTag m isDatasetFamily
    let has_dataset_assertion :=
      match m.claim_v2 with
      | some claim => claim.created_assertions.any (isCreativeOfType "Dataset")
      | none => false
    has_dataset_ingredients || has_dataset_assertion

/-- Embeds `is_model_manifest` (src/manifest/common.rs): model-family
ingredients, or a `Model` creative-work assertion in `claim_v2`; only when
`claim_v2` is absent, the first creative-work assertion of the legacy claim
is consulted instead. -/
def is_model_manifest (m : Manifest) : Bool :=
  let has_model_ingredients := hasIngredientTag m isModelFamily
  let has_model_assertion :=
    match m.claim_v2 with
    | some claim => claim.created_assertions.any (isCreativeOfType "Model")
    | none =>
      match m.claim.created_assertions.find? (fun a =>
        match a with
        | .creativeWork _ _ _ => true
        | _ => false) with
      | some (.creativeWork _ creative_type _) => creative_type == "Model"
      | _ => false
  has_model_ingredients || has_model_assertion

/-- Embeds `is_software_manifest` (src/manifest/common.rs): `Generator`
ingredients, or a `Software` creative-work assertion, or a `software_type`
action parameter, the latter two looked up in `claim_v2` only. -/
def is_software_manifest (m : Manifest) : Bool :=
  let has_software_ingredients := hasIngredientTag m isGeneratorTag
  let has_software_assertion :=
    match m.claim_v2 with
    | some claim => claim.created_assertions.any (isCreativeOfType "Software")
    | none => false
  let has_software_parameters :=
    match m.claim_v2 with
    | some claim => claim.created_assertions.any hasSoftwareTypeParam
    | none => false
  has_software_ingredients || has_software_assertion || has_software_parameters

/-- Embeds `determine_manifest_type` (src/manifest/utils.rs): Dataset
(assertion in either claim slot, or dataset-family ingredient), then
Software (assertion or `software_type` parameter in either slot, or
`Generator` ingredient), then Model (assertion in either slot, or
model-family ingredient), else Unknown.  Note the function has no
Evaluation case at all. -/
def determine_manifest_type (m : Manifest) : ManifestType :=
  let inV2 (p : Assertion → Bool) : Bool :=
    match m.claim_v2 with
    | some claim => claim.created_assertions.any p
    | none => false
  let has_dataset_assertion :=
    inV2 (isCreativeOfType "Dataset") || m.claim.created_assertions.any (isCreativeOfType "Dataset")
  let has_dataset_ingredients := hasIngredientTag m isDatasetFamily
  if has_dataset_assertion || has_dataset_ingredients then .dataset
  else
    let has_software_assertion :=
      inV2 (isCreativeOfType "Software") ||
        m.claim.created_assertions.any (isCreativeOfType "Software")
    let has_software_parameters :=
      inV2 hasSoftwareTypeParam || m.claim.created_assertions.any hasSoftwareTypeParam
    let has_software_ingredients := hasIngredientTag m isGeneratorTag
    if has_software_assertion || has_software_parameters || has_software_ingredients then .software
    else
      let has_model_assertion :=
        inV2 (isCreativeOfType "Model") || m.claim.created_assertions.any (isCreativeOfType "Model")
      let has_model_ingredients := hasIngredientTag m isModelFamily
      if has_model_assertion || has_model_ingredients then .model
      else .unknown

/-- Embeds `manifest_type_to_str` (src/manifest/utils.rs). -/
def manifest_type_to_str : ManifestType → String
  | .dataset => "Dataset"
  | .model => "Model"
  | .software => "Software"
  | .unknown => "Unknown"

/-! ## Verification engine (src/manifest/common.rs::verify_manifest) -/

/-- Stage 2 for one ingredient.  A `file://` URL is stripped and checked
through `ArtifactLocation::verify` with hard failures for mismatch or read
error; any other URL is re-hashed directly with the chunked hasher, failing
hard on mismatch but only warning (and continuing) when the file cannot be
read. -/
def verifyIngredient (fs : FS) (ing : Ingredient) : Except Err Unit :=
  if hasLeading "file://" ing.data.url then
    let path := dropLeadingAll "file://" ing.data.url
    let location : ArtifactLocation :=
      { url := ing.data.url, file_path := some path, hash := ing.data.hash }
    match artifactLocationVerify fs location with
    | .ok true => .ok ()
    | .ok false =>
      .error (.validation ("Hash verification failed for component: " ++ ing.title ++
        ". The file may have been modified."))
    | .error e =>
      .error (.validation ("Error verifying component " ++ ing.title ++ ": " ++ errToString e ++
        ". The file may be missing or inaccessible."))
  else
    match utils_calculate_file_hash fs ing.data.url with
    | .ok calculated_hash =>
      if calculated_hash ≠ ing.data.hash then
        .error (.validation ("Hash mismatch for ingredient: " ++ ing.title))
      else .ok ()
    | .error _ => .ok ()

/-- Stage 2 over all ingredients, stopping at the first failure. -/
def verifyIngredients (fs : FS) : List Ingredient → Except Err Unit
  | [] => .ok ()
  | ing :: rest =>
    match verifyIngredient fs ing with
    | .ok () => verifyIngredients fs rest
    | .error e => .error e

/-- The stage-3 mismatch message for one cross-reference. -/
def crossRefMismatchMsg (r : CrossReference) (calculated : String) : String :=
  "Cross-reference verification failed for linked manifest: " ++ r.manifest_url ++
  ". Hash mismatch: stored=" ++ r.manifest_hash ++ ", calculated=" ++ calculated

/-- Stage 3 for the cross-reference list: retrieve each referenced manifest
(propagating retrieval failure), recompute its canonical-JSON digest, and
require equality with the pinned hash. -/
def verifyCrossRefs (st : Storage) : List CrossReference → Except Err Unit
  | [] => .ok ()
  | r :: rest =>
    match retrieveManifest st r.manifest_url with
    | .error e => .error e
    | .ok linked =>
      let calculated := manifestDigest linked
      if calculated ≠ r.manifest_hash then .error (.validation (crossRefMismatchMsg r calculated))
      else verifyCrossRefs st rest

/-- Embeds `verify_asset_specific_requirements` (src/manifest/common.rs):
the ingredient-presence rule and the per-kind assertion-completeness rules.
All assertion rules sit inside `if let Some(claim) = &manifest.claim_v2`. -/
def verify_asset_specific_requirements (m : Manifest) : Except Err Unit :=
  let is_dataset := is_dataset_manifest m
  let is_model := is_model_manifest m
  let is_software := is_software_manifest m
  let is_evaluation := is_evaluation_manifest m
  if !is_evaluation && m.ingredients.isEmpty then
    .error (.validation "Manifest must contain at least one ingredient")
  else
    match m.claim_v2 with
    | none => .ok ()
    | some claim =>
      let datasetCheck : Except Err Unit :=
        if is_dataset then
          let has_dataset_assertion := claim.created_assertions.any (isCreativeOfType "Dataset")
          let has_dataset_assertion_in_claim :=
            if !has_dataset_assertion then
              m.claim.created_assertions.any (isCreativeOfType "Dataset")
            else false
          if !has_dataset_assertion && !has_dataset_assertion_in_claim then
            .error (.validation "Dataset manifest must contain a Dataset creative work assertion")
          else .ok ()
        else .ok ()
      match datasetCheck with
      | .error e => .error e
      | .ok () =>
        let modelCheck : Except Err Unit :=
          if is_model then
            let has_model_assertion := claim.created_assertions.any (isCreativeOfType "Model")
            let has_model_assertion_in_claim :=
              if !has_model_assertion then
                m.claim.created_assertions.any (isCreativeOfType "Model")
              else false
            if !has_model_assertion && !has_model_assertion_in_claim then
              .error (.validation "Model manifest must contain a Model creative work assertion")
            else .ok ()
          else .ok ()
        match modelCheck with
        | .error e => .error e
        | .ok () =>
          let softwareCheck : Except Err Unit :=
            if is_software then
              let has_software_assertion :=
                claim.created_assertions.any (isCreativeOfType "Software")
              let has_software_parameters := claim.created_assertions.any hasSoftwareTypeParam
              if !has_software_assertion && !has_software_parameters then
                .error (.validation ("Software manifest must contain a Software creative work " ++
                  "assertion or software_type parameter"))
              else .ok ()
            else .ok ()
          match softwareCheck with
          | .error e => .error e
          | .ok () =>
            if is_evaluation then
              let has_evaluation_assertion :=
                claim.created_assertions.any (isCreativeOfType "EvaluationResult")
              if !has_evaluation_assertion then
                .error (.validation ("Evaluation manifest must contain an EvaluationResult " ++
                  "creative work assertion"))
              else .ok ()
            else .ok ()

/-- Embeds `verify_manifest` (src/manifest/common.rs): retrieve, then the
four ordered stages — structural validation (the external
`atlas_c2pa_lib::manifest::validate_manifest`, passed in as `validate`),
ingredient hashes, cross-references, kind-specific completeness. -/
def verify_manifest (fs : FS) (validate : Manifest → Except String Unit) (id : String)
    (st : Storage) : Except Err Unit :=
  match retrieveManifest st id with
  | .error e => .error e
  | .ok m =>
    match validate m with
    | .error e => .error (.validation e)
    | .ok () =>
      match verifyIngredients fs m.ingredients with
      | .error e => .error e
      | .ok () =>
        match verifyCrossRefs st m.cross_references with
        | .error e => .error e
        | .ok () => verify_asset_specific_requirements m

/-! ## Extension-driven classification (src/manifest/utils.rs) -/

/-- Embeds `determine_model_type`. -/
def determine_model_type (path : String) : Except Err AssetType :=
  match pathExtension path with
  | some "pb" | some "savedmodel" | some "tf" => .ok .modelTensorFlow
  | some "pt" | some "pth" | some "pytorch" => .ok .modelPytorch
  | some "onnx" => .ok .modelOnnx
  | some "bin" | some "xml" => .ok .modelOpenVino
  | some "h5" | some "keras" | some "hdf5" => .ok .modelKeras
  | some "jax" => .ok .modelJax
  | some "mlnet" | some "zip" => .ok .modelMlNet
  | some "params" | some "json" | some "mxnet" => .ok .modelMxNet
  | some "npy" | some "npz" => .ok .formatNumpy
  | some "protobuf" | some "proto" => .ok .formatProtobuf
  | some "pkl" | some "pickle" => .ok .formatPickle
  | some _ => .ok .model
  | none => .error (.validation "Unsupported model format: file has no extension")

/-- Embeds `determine_format`. -/
def determine_format (path : String) : Except Err String :=
  match pathExtension path with
  | some "pb" => .ok "application/x-protobuf"
  | some "savedmodel" | some "tf" => .ok "application/x-tensorflow"
  | some "pt" | some "pth" | some "pytorch" => .ok "application/x-pytorch"
  | some "onnx" => .ok "application/onnx"
  | some "bin" | some "xml" => .ok "application/x-openvino"
  | some "h5" | some "keras" | some "hdf5" => .ok "application/x-hdf5"
  | some "jax" => .ok "application/x-jax"
  | some "mlnet" => .ok "application/x-mlnet"
  | some "zip" => .ok "application/zip"
  | some "params" | some "mxnet" => .ok "application/x-mxnet"
  | some "json" => .ok "application/json"
  | some "npy" | some "npz" => .ok "application/x-numpy"
  | some "protobuf" | some "proto" => .ok "application/x-protobuf"
  | some "pkl" | some "pickle" => .ok "application/x-pickle"
  | _ => .ok "application/octet-stream"

/-- Embeds `determine_software_type`: every path, with or without a
recognised extension, classifies as `Generator`. -/
def determine_software_type (_path : String) : Except Err AssetType := .ok .generator

/-- Embeds `determine_dataset_type`. -/
def determine_dataset_type (path : String) : Except Err AssetType :=
  match pathExtension path with
  | some "csv" | some "tsv" | some "txt" => .ok .dataset
  | some "json" | some "jsonl" => .ok .dataset
  | some "parquet" | some "orc" | some "avro" => .ok .dataset
  | some "tfrecord" | some "tfrec" => .ok .datasetTensorFlow
  | some "pb" | some "proto" | some "tf" => .ok .datasetTensorFlow
  | some "pt" | some "pth" | some "pytorch" => .ok .datasetPytorch
  | some "onnx" => .ok .datasetOnnx
  | some "bin" | some "xml" => .ok .datasetOpenVino
  | some "h5" | some "hdf5" | some "keras" => .ok .datasetKeras
  | some "jax" => .ok .datasetJax
  | some "mlnet" | some "zip" => .ok .datasetMlNet
  | some "rec" | some "idx" | some "params" | some "lst" | some "mxnet" => .ok .datasetMxNet
  | some "npy" | some "npz" => .ok .dataset
  | some "pkl" | some "pickle" => .ok .dataset
  | some "jpg" | some "jpeg" | some "png" | some "bmp" | some "tiff" => .ok .dataset
  | some _ => .ok .dataset
  | none => .error (.validation "Unsupported dataset format: file has no extension")

/-! ## Manifest creation (src/manifest/common.rs::create_manifest) -/

/-- The four asset kinds `create_manifest` distinguishes. -/
inductive AssetKind where
  | model
  | dataset
  | software
  | evaluation
deriving DecidableEq

/-- Ambient environment of a run: the file system plus the external signing
and attestation boundaries (spec section 6).  `cborClaim` is the canonical
CBOR serialization of a claim (`serde_cbor::to_vec`), `loadKey` and
`signData` the signer boundary, `ccAttestation` the composed result of
`get_cc_attestation_assertion` (platform label and report). -/
structure Env where
  fs : FS
  loadKey : String → Except Err String
  cborClaim : ClaimV2 → List Nat
  signData : List Nat → String → String → Except Err (List Nat)
  ccAttestation : Except Err (String × String)

/-- The identifiers and timestamps the real code draws from `Uuid::new_v4`
and `OffsetDateTime::now_utc`, supplied deterministically. -/
structure Oracle where
  docId : Nat → String
  instId : Nat → String
  claimInstanceId : String
  manifestInstanceId : String
  claimCreatedAt : String
  manifestCreatedAt : String

/-- Modelled from the spec: `ManifestCreationConfig`
(src/manifest/config.rs is not part of the sources provided; the fields and
their meanings are fixed by every use in src/manifest/common.rs and
src/manifest/evaluation.rs and by spec sections 4.3-4.4). -/
structure ManifestCreationConfig where
  paths : List String
  ingredient_names : List String
  name : String
  description : Option String
  author_org : Option String
  author_name : Option String
  custom_fields : Option JVal
  software_type : Option String
  version : Option String
  with_cc : Bool
  key_path : Option String
  hash_alg : String
  linked_manifests : Option (List String)
  storage : Option Storage
  print : Bool
  output_format : String

/-- Embeds `create_ingredient_from_path` (src/manifest/common.rs): hash the
file with `hash::calculate_file_hash` (whole-file read), mint ids, tag with
the single resolved asset type. -/
def create_ingredient_from_path (fs : FS) (path name : String) (asset_type : AssetType)
    (format : String) (docId instId : String) : Except Err Ingredient :=
  match hash_calculate_file_hash fs path with
  | .error e => .error e
  | .ok h =>
    .ok { title := name
          format := format
          relationship := "componentOf"
          document_id := docId
          instance_id := instId
          data := { url := path
                    alg := "sha256"
                    hash := h
                    data_types := [asset_type]
                    linked_ingredient_url := none
                    linked_ingredient_hash := none }
          linked_ingredient := none
          public_key := none }

/-- The asset-type resolution of the ingredient loop, by kind (evaluation
ingredients are tagged `Dataset`). -/
def assetTypeFor (kind : AssetKind) (path : String) : Except Err AssetType :=
  match kind with
  | .model => determine_model_type path
  | .dataset => determine_dataset_type path
  | .software => determine_software_type path
  | .evaluation => .ok .dataset

/-- The ingredient loop of `create_manifest`: for each `(path, name)` pair
of `paths.zip(ingredient_names)`, resolve format and asset type by kind and
build the ingredient.  The counter feeds the id oracle. -/
def mkIngredients (fs : FS) (kind : AssetKind) (oracle : Oracle) :
    List (String × String) → Nat → Except Err (List Ingredient)
  | [], _ => .ok []
  | (path, nm) :: rest, i =>
    match determine_format path with
    | .error e => .error e
    | .ok format =>
      match assetTypeFor kind path with
      | .error e => .error e
      | .ok t =>
        match create_ingredient_from_path fs path nm t format (oracle.docId i) (oracle.instId i) with
        | .error e => .error e
        | .ok ing =>
          match mkIngredients fs kind oracle rest (i + 1) with
          | .error e => .error e
          | .ok ings => .ok (ing :: ings)

/-- Creative type and digital source type per asset kind. -/
def creativeAndSource : AssetKind → String × String
  | .model => ("Model", "http://cv.iptc.org/newscodes/digitalsourcetype/algorithmicMedia")
  | .dataset => ("Dataset", "http://cv.iptc.org/newscodes/digitalsourcetype/dataset")
  | .software => ("Software", "http://cv.iptc.org/newscodes/digitalsourcetype/software")
  | .evaluation =>
    ("EvaluationResult", "http://cv.iptc.org/newscodes/digitalsourcetype/evaluationResult")

/-- The common `json!` parameter object of the created action. -/
def baseParams (config : ManifestCreationConfig) : JVal :=
  .obj [("name", .str config.name),
        ("description", match config.description with | some d => .str d | none => .null),
        ("author", .obj [("organization",
                           match config.author_org with | some o => .str o | none => .null),
                         ("name",
                           match config.author_name with | some n => .str n | none => .null)])]

/-- Action parameters per asset kind, as `create_manifest` assembles them:
evaluation merges `model_id`, `dataset_id` and `metrics` out of
`custom_fields.evaluation` when present; software inserts `software_type`
and `version` when present. -/
def paramsFor (kind : AssetKind) (config : ManifestCreationConfig) : JVal :=
  match kind with
  | .evaluation =>
    let params := baseParams config
    match config.custom_fields with
    | some cf =>
      match cf.get "evaluation" with
      | some ev =>
        ((params.insert "model_id" ((ev.get "model_id").getD .null)).insert
          "dataset_id" ((ev.get "dataset_id").getD .null)).insert
          "metrics" ((ev.get "metrics").getD .null)
      | none => params
    | none => params
  | .software =>
    let params := baseParams config
    let params :=
      match config.software_type with
      | some st => params.insert "software_type" (.str st)
      | none => params
    match config.version with
    | some v => params.insert "version" (.str v)
    | none => params
  | _ => baseParams config

/-- The action label per asset kind. -/
def actionNameFor : AssetKind → String
  | .evaluation => "c2pa.evaluation"
  | _ => "c2pa.created"

/-- The assertion list of a created claim: the creative work, the action,
and — under `with_cc` — the attestation custom assertion. -/
def mkAssertions (env : Env) (config : ManifestCreationConfig) (kind : AssetKind) :
    Except Err (List Assertion) :=
  let base : List Assertion :=
    [.creativeWork "http://schema.org/" (creativeAndSource kind).1
      [{ author_type := "Organization", name := config.author_org.getD "Organization" },
       { author_type := "Person", name := config.author_name.getD "Unknown" }],
     .action [{ action := actionNameFor kind
                software_agent := some "c2pa-cli"
                parameters := some (paramsFor kind config)
                digital_source_type := some (creativeAndSource kind).2
                instance_id := none }]]
  if config.with_cc then
    match env.ccAttestation with
    | .ok (platform, report) => .ok (base ++ [.custom platform (.str report)])
    | .error _ => .error .panicked
  else .ok base

/-- The claim after the optional signing step: serialize the claim with its
`signature` still `None` to CBOR, sign with the configured algorithm, and
attach the base64 signature. -/
def mkSignedClaim (env : Env) (config : ManifestCreationConfig) (unsigned : ClaimV2) :
    Except Err ClaimV2 :=
  match config.key_path with
  | none => .ok unsigned
  | some key_file =>
    match env.loadKey key_file with
    | .error e => .error e
    | .ok private_key =>
      match env.signData (env.cborClaim unsigned) private_key config.hash_alg with
      | .error e => .error e
      | .ok signature => .ok { unsigned with signature := some (base64Encode signature) }

/-- One link attempt of the linking loop: a successful retrieval yields a
cross-reference pinning the digest of the linked manifest's canonical JSON;
a failed retrieval is skipped (warned, not fatal). -/
def linkOne (st : Storage) (linked_id : String) : Option CrossReference :=
  match retrieveManifest st linked_id with
  | .ok linked =>
    some { manifest_url := linked_id
           manifest_hash := manifestDigest linked
           media_type := some "application/json" }
  | .error _ => none

/-- The cross-reference list of a created manifest. -/
def mkCrossRefs (config : ManifestCreationConfig) : List CrossReference :=
  match config.linked_manifests, config.storage with
  | some ids, some st => ids.filterMap (linkOne st)
  | _, _ => []

/-- The claim as first assembled, before the optional signing step. -/
def unsignedClaimOf (oracle : Oracle) (ingredients : List Ingredient)
    (assertions : List Assertion) : ClaimV2 :=
  { instance_id := oracle.claimInstanceId
    ingredients := ingredients
    created_assertions := assertions
    claim_generator_info := "c2pa-cli"
    signature := none
    created_at := oracle.claimCreatedAt }

/-- The manifest record `create_manifest` assembles around a finished
claim: the claim is placed in both the legacy `claim` slot and `claim_v2`. -/
def manifestAssembled (config : ManifestCreationConfig) (oracle : Oracle)
    (ingredients : List Ingredient) (claim : ClaimV2) (cross_references : List CrossReference) :
    Manifest :=
  { claim_generator := "c2pa-cli/0.1.0"
    title := config.name
    instance_id := oracle.manifestInstanceId
    ingredients := ingredients
    claim := claim
    created_at := oracle.manifestCreatedAt
    cross_references := cross_references
    claim_v2 := some claim
    is_active := true }

/-- The manifest value `create_manifest` assembles, before the output /
store steps: ingredients, assertions, (optionally signed) claim placed in
both claim slots, and best-effort cross-references. -/
def buildManifest (env : Env) (config : ManifestCreationConfig) (kind : AssetKind)
    (oracle : Oracle) : Except Err Manifest :=
  match mkIngredients env.fs kind oracle (config.paths.zip config.ingredient_names) 0 with
  | .error e => .error e
  | .ok ingredients =>
    match mkAssertions env config kind with
    | .error e => .error e
    | .ok assertions =>
      match mkSignedClaim env config (unsignedClaimOf oracle ingredients assertions) with
      | .error e => .error e
      | .ok claim => .ok (manifestAssembled config oracle ingredients claim (mkCrossRefs config))

/-- The output-format gate of `create_manifest`: only reached when printing
was requested or no storage is configured; a format other than json/cbor
(case-insensitively) is a `Validation` error. -/
def outputCheck (config : ManifestCreationConfig) : Except Err Unit :=
  if config.print || config.storage.isNone then
    match toLowerAscii config.output_format with
    | "json" => .ok ()
    | "cbor" => .ok ()
    | _ =>
      .error (.validation ("Invalid output format '" ++ config.output_format ++
        "'. Valid options are: json, cbor"))
  else .ok ()

/-- Embeds `create_manifest` (src/manifest/common.rs).  Returns the result
together with the storage state after the call (unchanged on failure or
when printing / no backend, extended by the stored manifest otherwise). -/
def create_manifest (env : Env) (config : ManifestCreationConfig) (kind : AssetKind)
    (oracle : Oracle) : Except Err Unit × Option Storage :=
  match buildManifest env config kind oracle with
  | .error e => (.error e, config.storage)
  | .ok m =>
    match outputCheck config with
    | .error e => (.error e, config.storage)
    | .ok () =>
      match config.storage with
      | some st => if config.print then (.ok (), some st) else (.ok (), some (storeManifest st m))
      | none => (.ok (), none)

/-! ## Evaluation manifests (src/manifest/evaluation.rs) -/

/-- The metric-parsing loop of evaluation `create_manifest`: split each
entry at `=`; exactly two pieces insert into the map, anything else fails
the whole operation naming the entry. -/
def parseMetricsGo : List String → List (String × String) → Except Err (List (String × String))
  | [], acc => .ok acc
  | metric :: rest, acc =>
    match splitChar '=' metric with
    | [k, v] => parseMetricsGo rest (mapInsert acc k v)
    | _ =>
      .error (.validation ("Invalid metric format: " ++ metric ++ ". Expected format: key=value"))

/-- Metric parsing from an empty map. -/
def parseMetrics (metrics : List String) : Except Err (List (String × String)) :=
  parseMetricsGo metrics []

/-- Embeds evaluation `create_manifest` (src/manifest/evaluation.rs): parse
metrics (failing before anything else), enhance the description, force the
model and dataset ids into the linked manifests, stash the evaluation
parameters in `custom_fields`, and defer to the common implementation with
kind Evaluation. -/
def evaluation_create_manifest (env : Env) (config : ManifestCreationConfig)
    (model_id dataset_id : String) (metrics : List String) (oracle : Oracle) :
    Except Err Unit × Option Storage :=
  match parseMetrics metrics with
  | .error e => (.error e, config.storage)
  | .ok metrics_map =>
    let eval_params : JVal :=
      .obj [("model_id", .str model_id), ("dataset_id", .str dataset_id),
            ("metrics", .obj (metrics_map.map (fun kv => (kv.1, JVal.str kv.2))))]
    let description : Option String :=
      match config.description with
      | some d => some (d ++ " (Model: " ++ model_id ++ ", Dataset: " ++ dataset_id ++ ")")
      | none => some ("Evaluation of Model: " ++ model_id ++ " on Dataset: " ++ dataset_id)
    let l0 := config.linked_manifests.getD []
    let l1 := if l0.contains model_id then l0 else l0 ++ [model_id]
    let l2 := if l1.contains dataset_id then l1 else l1 ++ [dataset_id]
    let config' := { config with
      description := description
      linked_manifests := some l2
      custom_fields := some (.obj [("evaluation", eval_params)]) }
    create_manifest env config' .evaluation oracle

/-- The cross-reference scan of `verify_evaluation_manifest`: retrieve each
referenced manifest (failing on a retrieval error) and record whether some
reference classifies as Model and some as Dataset. -/
def evalRefScan (st : Storage) : List CrossReference → Bool → Bool → Except Err (Bool × Bool)
  | [], found_model, found_dataset => .ok (found_model, found_dataset)
  | r :: rest, found_model, found_dataset =>
    match retrieveManifest st r.manifest_url with
    | .ok ref_manifest =>
      evalRefScan st rest
        (found_model || (manifest_type_to_str (determine_manifest_type ref_manifest) == "Model"))
        (found_dataset || (manifest_type_to_str (determine_manifest_type ref_manifest) == "Dataset"))
    | .error e =>
      .error (.validation ("Failed to retrieve referenced manifest " ++ r.manifest_url ++ ": " ++
        errToString e))

/-- Embeds `verify_evaluation_manifest` (src/manifest/evaluation.rs): common
verification first, then the manifest must be an evaluation manifest and
its cross-references must include a Model-classified and a
Dataset-classified referenced manifest. -/
def verify_evaluation_manifest (fs : FS) (validate : Manifest → Except String Unit) (id : String)
    (st : Storage) : Except Err Unit :=
  match verify_manifest fs validate id st with
  | .error e => .error e
  | .ok () =>
    match retrieveManifest st id with
    | .error e => .error e
    | .ok m =>
      if !is_evaluation_manifest m then .error (.validation "Not an evaluation manifest")
      else
        match evalRefScan st m.cross_references false false with
        | .error e => .error e
        | .ok (found_model, found_dataset) =>
          if !found_model then .error (.validation "Evaluation manifest must reference a model")
          else if !found_dataset then
            .error (.validation "Evaluation manifest must reference a dataset")
          else .ok ()

/-! ## Concrete fixtures

Closed values used by the witness and counterexample theorems: a small file
system, environment, oracle, and a handful of stored manifests. -/

/-- A default (empty) claim, used only to totalize extraction helpers. -/
def defaultClaim : ClaimV2 :=
  { instance_id := ""
    ingredients := []
    created_assertions := []
    claim_generator_info := ""
    signature := none
    created_at := "" }

/-- A default manifest, used only to totalize extraction helpers. -/
def defaultManifest : Manifest :=
  { claim_generator := ""
    title := ""
    instance_id := ""
    ingredients := []
    claim := defaultClaim
    created_at := ""
    cross_references := []
    claim_v2 := none
    is_active := false }

/-- Extract the manifest of a successful result. -/
def getOkManifest : Except Err Manifest → Manifest
  | .ok m => m
  | .error _ => defaultManifest

/-- Extract the claim of a populated claim slot. -/
def getSomeClaim : Option ClaimV2 → ClaimV2
  | some c => c
  | none => defaultClaim

/-- Witness file system: two ordinary readable files. -/
def fsW : FS := fun p =>
  if p = "model.onnx" then some ⟨[1, 2, 3], false, 1⟩
  else if p = "data.csv" then some ⟨[4, 5], false, 1⟩
  else none

/-- Witness environment with simple deterministic external boundaries. -/
def envW : Env :=
  { fs := fsW
    loadKey := fun _ => .ok "PRIVATEKEY"
    cborClaim := fun c => strBytes (claimJson c)
    signData := fun data _ alg => .ok (data.take 4 ++ strBytes alg)
    ccAttestation := .ok ("tdx", "report-bytes") }

/-- Witness oracle of identifiers and timestamps. -/
def oracleW : Oracle :=
  { docId := fun i => "uuid:doc" ++ hexEncode [i]
    instId := fun i => "uuid:ing" ++ hexEncode [i]
    claimInstanceId := "urn:c2pa:claim-0"
    manifestInstanceId := "urn:c2pa:manifest-0"
    claimCreatedAt := "2026-01-01T00:00:00Z"
    manifestCreatedAt := "2026-01-01T00:00:01Z" }

/-- A small stored manifest serving as a cross-reference target. -/
def manifestB : Manifest :=
  { claim_generator := "g"
    title := "B"
    instance_id := "B-id"
    ingredients := []
    claim := { defaultClaim with instance_id := "cb", claim_generator_info := "g", created_at := "t" }
    created_at := "t"
    cross_references := []
    claim_v2 := none
    is_active := true }

/-- Witness storage holding `manifestB`. -/
def stW : Storage := [("B-id", manifestB)]

/-- Witness creation request: one model file, linked to `manifestB`,
unsigned, stored (not printed). -/
def cfgW : ManifestCreationConfig :=
  { paths := ["model.onnx"]
    ingredient_names := ["the model"]
    name := "My Model"
    description := some "a model"
    author_org := none
    author_name := some "Ann"
    custom_fields := none
    software_type := none
    version := none
    with_cc := false
    key_path := none
    hash_alg := "sha384"
    linked_manifests := some ["B-id", "missing-id"]
    storage := some stW
    print := false
    output_format := "json" }

/-- The manifest the witness creation run assembles. -/
def mW : Manifest := getOkManifest (buildManifest envW cfgW .model oracleW)

/-- The storage after the witness creation run stores `mW`. -/
def stW2 : Storage := storeManifest stW mW

/-- Signing witness request: as `cfgW` but with a signing key and no links. -/
def cfgSign : ManifestCreationConfig :=
  { cfgW with key_path := some "key.pem", linked_manifests := none }

/-- The manifest assembled with signing enabled. -/
def mSign : Manifest := getOkManifest (buildManifest envW cfgSign .model oracleW)

/-- Its claim. -/
def cSign : ClaimV2 := getSomeClaim mSign.claim_v2

/-- Empty-input creation request: no source files at all, stored. -/
def cfgEmpty : ManifestCreationConfig :=
  { cfgW with paths := [], ingredient_names := [], linked_manifests := none, storage := some [] }

/-- The storage after the empty-input creation run. -/
def stEmpty : Storage :=
  match (create_manifest envW cfgEmpty .model oracleW).2 with
  | some st => st
  | none => []

/-- `manifestB` after tampering with one field and re-storing. -/
def manifestB2 : Manifest := { manifestB with title := "B-tampered" }

/-- A manifest pinned to the original `manifestB` digest. -/
def manifestA : Manifest :=
  { defaultManifest with
    title := "A"
    instance_id := "A-id"
    cross_references :=
      [{ manifest_url := "B-id"
         manifest_hash := manifestDigest manifestB
         media_type := some "application/json" }]
    is_active := true }

/-- Storage where `manifestB` was tampered with after `manifestA` linked it. -/
def stTampered : Storage := [("A-id", manifestA), ("B-id", manifestB2)]

/-- A dataset-tagged ingredient (stored data, not derived from a file). -/
def ingDataset : Ingredient :=
  { title := "plain dataset"
    format := "text/csv"
    relationship := "componentOf"
    document_id := "uuid:d0"
    instance_id := "uuid:d1"
    data := { url := "file://data.csv"
              alg := "sha256"
              hash := calculate_hash [4, 5]
              data_types := [.dataset]
              linked_ingredient_url := none
              linked_ingredient_hash := none }
    linked_ingredient := none
    public_key := none }

/-- A claim carrying an `EvaluationResult` creative-work assertion. -/
def claimEvalCW : ClaimV2 :=
  { defaultClaim with
    instance_id := "ce"
    created_assertions := [.creativeWork "http://schema.org/" "EvaluationResult" []] }

/-- A manifest with both a dataset-tagged ingredient and an
`EvaluationResult` assertion in `claim_v2`. -/
def mMixed : Manifest :=
  { defaultManifest with
    title := "mixed"
    instance_id := "C4-id"
    ingredients := [ingDataset]
    claim_v2 := some claimEvalCW
    is_active := true }

/-- A dataset-classified manifest (by ingredient tag) whose `claim_v2` is
absent and whose legacy claim holds no assertions. -/
def mNoV2 : Manifest :=
  { defaultManifest with
    title := "no-v2"
    instance_id := "C5-id"
    ingredients := [ingDataset]
    claim_v2 := none
    is_active := true }

/-- A stored dataset-classified manifest (cross-reference target). -/
def mDataset : Manifest :=
  { defaultManifest with
    title := "D"
    instance_id := "D-id"
    ingredients := [ingDataset]
    is_active := true }

/-- An evaluation manifest whose only cross-reference is dataset-classified
(no model reference). -/
def mEval : Manifest :=
  { defaultManifest with
    title := "EV"
    instance_id := "EV-id"
    claim := claimEvalCW
    claim_v2 := some claimEvalCW
    cross_references :=
      [{ manifest_url := "D-id"
         manifest_hash := manifestDigest mDataset
         media_type := some "application/json" }]
    is_active := true }

/-- Storage holding the evaluation manifest and its dataset reference. -/
def stEval : Storage := [("EV-id", mEval), ("D-id", mDataset)]

/-- An always-accepting structural validator (the external
`validate_manifest` boundary instantiated for witnesses). -/
def validateOk : Manifest → Except String Unit := fun _ => .ok ()

/-- Extract a successful ingredient list. -/
def getOkIngredients : Except Err (List Ingredient) → List Ingredient
  | .ok l => l
  | .error _ => []

/-- Extract a successful assertion list. -/
def getOkAssertions : Except Err (List Assertion) → List Assertion
  | .ok l => l
  | .error _ => []

/-- Extract a successful claim. -/
def getOkClaim : Except Err ClaimV2 → ClaimV2
  | .ok c => c
  | .error _ => defaultClaim

/-- The ingredients of the witness creation run. -/
def ingsW : List Ingredient :=
  getOkIngredients (mkIngredients envW.fs .model oracleW [("model.onnx", "the model")] 0)

/-- The assertions of the witness creation run. -/
def assertsW : List Assertion := getOkAssertions (mkAssertions envW cfgW .model)

/-- The (unsigned) claim of the witness creation run. -/
def claimW : ClaimV2 :=
  getOkClaim (mkSignedClaim envW cfgW (unsignedClaimOf oracleW ingsW assertsW))

/-- A dataset-classified manifest whose `claim_v2` is populated but carries
no assertions at all (and neither does the legacy claim). -/
def mV2NoAssert : Manifest :=
  { mNoV2 with instance_id := "C5b-id", claim_v2 := some { defaultClaim with instance_id := "cv" } }

/-! ## Theorems

Sanity anchors for the embedded SHA-256 (the repository's own test vectors
from src/tests/hash.rs and src/hash/mod.rs), supporting lemmas, and the
claim theorems. -/

/-- The embedded SHA-256 matches the empty-input vector the spec and the
repository's tests pin down. -/
theorem sha256_empty_vector :
    hexEncode (sha256 []) = "e3b0c44298fc1c149afbf4c8996fb92427ae41e4649b934ca495991b7852b855" := by
  decide

/-- The embedded SHA-256 matches the FIPS "abc" vector used by the
repository's tests. -/
theorem sha256_abc_vector :
    hexEncode (sha256 (strBytes "abc")) =
      "ba7816bf8f01cfea414140de5dae2223b00361a396177a9cb410ff61f20015ad" := by
  decide

/-- Rejoining the chunks of a list gives the list back. -/
theorem chunksFuel_flatten (n : Nat) (hn : 0 < n) :
    ∀ fuel l, List.length l ≤ fuel → (chunksFuel n fuel (l : List α)).flatten = l := by
  intro fuel
  induction fuel with
  | zero =>
    intro l hl
    have : l = [] := List.eq_nil_of_length_eq_zero (Nat.le_zero.mp hl)
    subst this
    simp [chunksFuel]
  | succ f ih =>
    intro l hl
    cases l with
    | nil => simp [chunksFuel]
    | cons x xs =>
      have hdrop : (List.drop n (x :: xs)).length ≤ f := by
        rw [List.length_drop]
        omega
      calc (chunksFuel n (f + 1) (x :: xs)).flatten
          = List.take n (x :: xs) ++ (chunksFuel n f (List.drop n (x :: xs))).flatten := by
            simp [chunksFuel]
        _ = List.take n (x :: xs) ++ List.drop n (x :: xs) := by rw [ih _ hdrop]
        _ = x :: xs := List.take_append_drop n (x :: xs)

/-- Chunking then flattening is the identity. -/
theorem chunkList_flatten (n : Nat) (hn : 0 < n) (l : List α) : (chunkList n l).flatten = l :=
  chunksFuel_flatten n hn l.length l (Nat.le_refl _)

/-- C10: the two file-hashing implementations agree.  Whenever both
`hash::calculate_file_hash` (whole-file read, used at ingredient creation)
and `hash::utils::calculate_file_hash` (chunked read via `safe_open_file`,
used by stage-2 re-verification of non-file-URL ingredients) return `Ok` on
the same path, they return the same hex digest, namely the SHA-256 of the
file's complete contents. -/
theorem file_hashers_agree (fs : FS) (p : String) (h1 h2 : String)
    (hmod : hash_calculate_file_hash fs p = .ok h1)
    (hutils : utils_calculate_file_hash fs p = .ok h2) :
    h1 = h2 ∧ ∃ e, fs p = some e ∧ h1 = hexEncode (sha256 e.content) := by
  cases hfs : fs p with
  | none =>
    rw [hash_calculate_file_hash, hfs] at hmod
    cases hmod
  | some e =>
    rw [hash_calculate_file_hash, hfs] at hmod
    rw [utils_calculate_file_hash, hfs] at hutils
    cases hmod
    by_cases hsym : e.isSymlink
    · simp [hsym] at hutils
    · by_cases hnl : e.nlink > 1
      · simp [hsym, hnl] at hutils
      · simp only [hsym, if_false, hnl, if_neg, Bool.false_eq_true] at hutils
        cases hutils
        refine ⟨?_, e, rfl, rfl⟩
        rw [chunkList_flatten 8192 (by decide) e.content]
        rfl

/-- C10 witness: on the concrete file `model.onnx` of the witness file
system, both hashers return `Ok` and the theorem applies. -/
theorem file_hashers_agree_witness :
    calculate_hash [1, 2, 3] = calculate_hash [1, 2, 3] ∧
      ∃ e, fsW "model.onnx" = some e ∧
        calculate_hash [1, 2, 3] = hexEncode (sha256 e.content) :=
  file_hashers_agree fsW "model.onnx" (calculate_hash [1, 2, 3]) (calculate_hash [1, 2, 3])
    (by rfl) (by rfl)

/-- The combining loop digests the accumulated bytes followed by the
decoded bytes of each remaining hash, in order. -/
theorem combineHashesGo_ok :
    ∀ hashes bss acc, List.Forall₂ (fun h bs => hexDecodeStr h = .ok bs) hashes bss →
      combineHashesGo hashes acc = .ok (hexEncode (sha256 (acc ++ bss.flatten))) := by
  intro hashes bss acc hall
  induction hall generalizing acc with
  | nil => simp [combineHashesGo]
  | cons hdec _ ih =>
    rw [combineHashesGo, hdec]
    simp [ih, List.append_assoc]

/-- The combining loop fails with the hex-decode error of the first
malformed element, whatever was already accumulated. -/
theorem combineHashesGo_error :
    ∀ pre bad rest msg acc, (∀ g ∈ pre, ∃ bs, hexDecodeStr g = .ok bs) →
      hexDecodeStr bad = .error msg →
      combineHashesGo (pre ++ bad :: rest) acc = .error (.hexDecode msg) := by
  intro pre
  induction pre with
  | nil =>
    intro bad rest msg acc _ hbad
    rw [List.nil_append, combineHashesGo, hbad]
  | cons g gs ih =>
    intro bad rest msg acc hpre hbad
    obtain ⟨bs, hg⟩ := hpre g (List.mem_cons_self g gs)
    rw [List.cons_append, combineHashesGo, hg]
    exact ih bad rest msg (acc ++ bs) (fun g' hg' => hpre g' (List.mem_cons_of_mem g hg')) hbad

/-- C8: `combine_hashes` is the digest of the ordered concatenation of the
decoded inputs.  When every element decodes, the result is the hex SHA-256
of the concatenation of the decoded bytes in list order; the empty list
yields the digest of the empty byte string; the repository's own order
test vectors give different results in different orders; a malformed
element makes the whole call fail with a HexDecode error. -/
theorem combine_hashes_spec :
    (∀ hashes bss, List.Forall₂ (fun h bs => hexDecodeStr h = .ok bs) hashes bss →
       combine_hashes hashes = .ok (hexEncode (sha256 bss.flatten))) ∧
    combine_hashes [] =
      .ok "e3b0c44298fc1c149afbf4c8996fb92427ae41e4649b934ca495991b7852b855" ∧
    combine_hashes [calculate_hash (strBytes "data1"), calculate_hash (strBytes "data2")] ≠
      combine_hashes [calculate_hash (strBytes "data2"), calculate_hash (strBytes "data1")] ∧
    (∀ pre bad rest msg, (∀ g ∈ pre, ∃ bs, hexDecodeStr g = .ok bs) →
       hexDecodeStr bad = .error msg →
       combine_hashes (pre ++ bad :: rest) = .error (.hexDecode msg)) := by
  refine ⟨?_, by decide, by decide, ?_⟩
  · intro hashes bss hall
    have := combineHashesGo_ok hashes bss [] hall
    rwa [List.nil_append] at this
  · intro pre bad rest msg hpre hbad
    exact combineHashesGo_error pre bad rest msg [] hpre hbad

/-- C8 witness: a fully decodable input digests its concatenated bytes; a
non-hex input fails with the decoder's error. -/
theorem combine_hashes_spec_witness :
    combine_hashes ["00ff"] = .ok (hexEncode (sha256 ([[0, 255]] : List (List Nat)).flatten)) ∧
    combine_hashes ["xy"] = .error (.hexDecode "Invalid character 'x'") :=
  ⟨combine_hashes_spec.1 ["00ff"] [[0, 255]]
      (List.Forall₂.cons (by decide) List.Forall₂.nil),
   combine_hashes_spec.2.2.2 [] "xy" [] "Invalid character 'x'" (by simp) (by decide)⟩

/-- Inserting a key makes it present. -/
theorem mapInsert_mem_key (l : List (String × String)) (k v : String) :
    ∃ v', (k, v') ∈ mapInsert l k v := by
  unfold mapInsert
  by_cases h : l.any (fun kv => kv.1 == k)
  · obtain ⟨kv, hkv, hbeq⟩ := List.any_eq_true.mp h
    rw [if_pos h]
    exact ⟨v, List.mem_map.mpr ⟨kv, hkv, by rw [if_pos hbeq]⟩⟩
  · rw [if_neg h]
    exact ⟨v, List.mem_append_right _ (List.mem_singleton.mpr rfl)⟩

/-- Insertion preserves the presence of every key. -/
theorem mapInsert_mem_key_preserved (l : List (String × String)) (k v k0 : String)
    (h : ∃ v0, (k0, v0) ∈ l) : ∃ v', (k0, v') ∈ mapInsert l k v := by
  by_cases hk : k0 = k
  · subst hk; exact mapInsert_mem_key l k0 v
  · obtain ⟨v0, hv0⟩ := h
    unfold mapInsert
    by_cases hany : l.any (fun kv => kv.1 == k)
    · rw [if_pos hany]
      exact ⟨v0, List.mem_map.mpr ⟨(k0, v0), hv0, by simp [hk]⟩⟩
    · rw [if_neg hany]
      exact ⟨v0, List.mem_append_left _ hv0⟩

/-- The metric loop, on success, holds an entry for the accumulated keys
and for the key of every well-formed metric string. -/
theorem parseMetricsGo_keys :
    ∀ ms acc mm, parseMetricsGo ms acc = .ok mm →
      (∀ k0, (∃ v0, (k0, v0) ∈ acc) → ∃ v', (k0, v') ∈ mm) ∧
      (∀ g ∈ ms, ∀ k v, splitChar '=' g = [k, v] → ∃ v', (k, v') ∈ mm) := by
  intro ms
  induction ms with
  | nil =>
    intro acc mm h
    rw [parseMetricsGo] at h
    cases h
    exact ⟨fun k0 hk => hk, fun g hg => absurd hg (List.not_mem_nil g)⟩
  | cons g gs ih =>
    intro acc mm h
    rw [parseMetricsGo] at h
    split at h
    next k v heq =>
      obtain ⟨hacc, hrest⟩ := ih _ mm h
      refine ⟨fun k0 hk => hacc k0 (mapInsert_mem_key_preserved acc k v k0 hk), ?_⟩
      intro g' hg' k' v' hsp
      rcases List.mem_cons.mp hg' with hgg | hgs
      · subst hgg
        rw [heq] at hsp
        cases hsp
        exact hacc k (mapInsert_mem_key acc k v)
      · exact hrest g' hgs k' v' hsp
    next => cases h

/-- The metric loop fails at the first malformed entry, naming it, whatever
well-formed entries preceded it. -/
theorem parseMetricsGo_error :
    ∀ pre acc bad rest, (∀ g ∈ pre, (splitChar '=' g).length = 2) →
      (splitChar '=' bad).length ≠ 2 →
      parseMetricsGo (pre ++ bad :: rest) acc =
        .error (.validation ("Invalid metric format: " ++ bad ++ ". Expected format: key=value")) := by
  intro pre
  induction pre with
  | nil =>
    intro acc bad rest _ hbad
    rw [List.nil_append, parseMetricsGo]
    split
    next k v heq => exact absurd (by rw [heq]; rfl) hbad
    next => rfl
  | cons g gs ih =>
    intro acc bad rest hpre hbad
    obtain ⟨k, v, hkv⟩ := List.length_eq_two.mp (hpre g (List.mem_cons_self g gs))
    rw [List.cons_append, parseMetricsGo]
    split
    next k' v' heq =>
      exact ih _ bad rest (fun g' hg' => hpre g' (List.mem_cons_of_mem g hg')) hbad
    next hno => exact absurd hkv (hno k v)

/-- C9: metric parsing for evaluation manifests.  A metric with exactly one
`=` (split yields exactly two pieces) contributes its key to the metrics
map; a malformed metric fails the whole `evaluation::create_manifest` call
with a Validation error naming it, before any manifest is built or stored
(the storage comes back unchanged); the claim's own example parses as
stated. -/
theorem metric_parsing_spec :
    (∀ env config model_id dataset_id oracle pre bad rest,
       (∀ g ∈ pre, (splitChar '=' g).length = 2) → (splitChar '=' bad).length ≠ 2 →
       evaluation_create_manifest env config model_id dataset_id (pre ++ bad :: rest) oracle =
         (.error (.validation ("Invalid metric format: " ++ bad ++ ". Expected format: key=value")),
          config.storage)) ∧
    (∀ metrics mm, parseMetrics metrics = .ok mm →
       ∀ g ∈ metrics, ∀ k v, splitChar '=' g = [k, v] → ∃ v', (k, v') ∈ mm) ∧
    parseMetrics ["accuracy=0.95"] = .ok [("accuracy", "0.95")] := by
  refine ⟨?_, ?_, by decide⟩
  · intro env config model_id dataset_id oracle pre bad rest hpre hbad
    rw [evaluation_create_manifest, parseMetrics, parseMetricsGo_error pre [] bad rest hpre hbad]
  · intro metrics mm h g hg k v hsp
    exact (parseMetricsGo_keys metrics [] mm h).2 g hg k v hsp

/-- C9 witness: `"accuracy"` (no `=`) aborts the evaluation creation with
the naming Validation error and leaves storage untouched; `"accuracy=0.95"`
contributes the key `"accuracy"`. -/
theorem metric_parsing_spec_witness :
    evaluation_create_manifest envW cfgW "M-id" "D-id" ["accuracy"] oracleW =
      (.error (.validation "Invalid metric format: accuracy. Expected format: key=value"),
       some stW) ∧
    ∃ v', ("accuracy", v') ∈ [("accuracy", "0.95")] :=
  ⟨metric_parsing_spec.1 envW cfgW "M-id" "D-id" oracleW [] "accuracy" [] (by simp) (by decide),
   metric_parsing_spec.2.1 ["accuracy=0.95"] [("accuracy", "0.95")] (by decide)
     "accuracy=0.95" (List.mem_singleton.mpr rfl) "accuracy" "0.95" (by decide)⟩

/-- C4 counterexample: a manifest with both a Dataset-tagged ingredient and
an `EvaluationResult` creative-work assertion is classified by
`determine_manifest_type` as Dataset — the function has no Evaluation case,
so, contrary to the claim, the assertion takes no precedence there. -/
theorem determine_manifest_type_no_evaluation_case :
    determine_manifest_type mMixed = .dataset ∧ is_evaluation_manifest mMixed = true := by
  exact ⟨rfl, rfl⟩

/-- C4 amended: the EvaluationResult precedence holds for the verification
predicates — `is_dataset_manifest` is false for every manifest carrying an
`EvaluationResult` assertion in `claim_v2` — while `determine_manifest_type`
(used by listing and cross-reference classification) classifies every
manifest with a Dataset-tagged ingredient as Dataset, EvaluationResult
assertion or not. -/
theorem kind_inference_precedence_amended :
    (∀ m, is_evaluation_manifest m = true → is_dataset_manifest m = false) ∧
    (∀ m, hasIngredientTag m isDatasetFamily = true → determine_manifest_type m = .dataset) := by
  constructor
  · intro m h
    simp [is_dataset_manifest, h]
  · intro m h
    simp [determine_manifest_type, h]

/-- C4 witness: the amended precedence evaluated on the mixed manifest. -/
theorem kind_inference_precedence_witness :
    is_dataset_manifest mMixed = false ∧ determine_manifest_type mMixed = .dataset :=
  ⟨kind_inference_precedence_amended.1 mMixed (by rfl),
   kind_inference_precedence_amended.2 mMixed (by rfl)⟩

/-- C5 counterexample: a manifest classified as Dataset through its
ingredient tag, with `claim_v2` absent and no Dataset creative-work
assertion in either claim slot, passes stage 4 (and full verification) with
`Ok` — no Validation error is raised, contrary to the claim. -/
theorem stage4_missing_assertion_passes :
    is_dataset_manifest mNoV2 = true ∧ mNoV2.claim_v2 = none ∧
    mNoV2.claim.created_assertions = [] ∧
    verify_asset_specific_requirements mNoV2 = .ok () ∧
    verify_manifest fsW validateOk "C5-id" [("C5-id", mNoV2)] = .ok () := by
  refine ⟨rfl, rfl, rfl, rfl, by decide⟩

/-- C5 amended: when `claim_v2` is populated, a missing required assertion
is a hard Validation failure — Dataset and Model checked across both claim
slots, Software satisfied only by a Software assertion or `software_type`
parameter inside `claim_v2` — but when `claim_v2` is absent, stage 4 checks
nothing beyond ingredient presence. -/
theorem stage4_completeness_amended :
    (∀ m c, m.claim_v2 = some c → m.ingredients ≠ [] → is_dataset_manifest m = true →
       c.created_assertions.any (isCreativeOfType "Dataset") = false →
       m.claim.created_assertions.any (isCreativeOfType "Dataset") = false →
       verify_asset_specific_requirements m =
         .error (.validation "Dataset manifest must contain a Dataset creative work assertion")) ∧
    (∀ m c, m.claim_v2 = some c → m.ingredients ≠ [] → is_dataset_manifest m = false →
       is_model_manifest m = true →
       c.created_assertions.any (isCreativeOfType "Model") = false →
       m.claim.created_assertions.any (isCreativeOfType "Model") = false →
       verify_asset_specific_requirements m =
         .error (.validation "Model manifest must contain a Model creative work assertion")) ∧
    (∀ m c, m.claim_v2 = some c → m.ingredients ≠ [] → is_dataset_manifest m = false →
       is_model_manifest m = false → is_software_manifest m = true →
       c.created_assertions.any (isCreativeOfType "Software") = false →
       c.created_assertions.any hasSoftwareTypeParam = false →
       verify_asset_specific_requirements m =
         .error (.validation ("Software manifest must contain a Software creative work " ++
           "assertion or software_type parameter"))) ∧
    (∀ m, m.claim_v2 = none → m.ingredients ≠ [] →
       verify_asset_specific_requirements m = .ok ()) := by
  have hie : ∀ (l : List Ingredient), l ≠ [] → l.isEmpty = false := by
    intro l hl
    cases hi : l.isEmpty
    · rfl
    · exact absurd (List.isEmpty_iff.mp hi) hl
  refine ⟨?_, ?_, ?_, ?_⟩
  · intro m c hv2 hne hds hc1 hc2
    rw [verify_asset_specific_requirements, hie m.ingredients hne]
    simp [hv2, hds, hc1, hc2]
  · intro m c hv2 hne hds hmo hc1 hc2
    rw [verify_asset_specific_requirements, hie m.ingredients hne]
    simp [hv2, hds, hmo, hc1, hc2]
  · intro m c hv2 hne hds hmo hsw hc1 hc2
    rw [verify_asset_specific_requirements, hie m.ingredients hne]
    simp [hv2, hds, hmo, hsw, hc1, hc2]
  · intro m hv2 hne
    rw [verify_asset_specific_requirements, hie m.ingredients hne]
    simp [hv2]

/-- C5 witness: the dataset error fires when `claim_v2` is populated but
both slots miss the Dataset assertion; the no-check branch fires when
`claim_v2` is absent. -/
theorem stage4_completeness_witness :
    verify_asset_specific_requirements mV2NoAssert =
      .error (.validation "Dataset manifest must contain a Dataset creative work assertion") ∧
    verify_asset_specific_requirements mNoV2 = .ok () :=
  ⟨stage4_completeness_amended.1 mV2NoAssert _ rfl (by decide) (by rfl) (by rfl) (by rfl),
   stage4_completeness_amended.2.2.2 mNoV2 rfl (by decide)⟩

/-- Stage 3 halts at the first failing cross-reference: a retrieval error
propagates, a digest mismatch produces the naming Validation error. -/
theorem verifyCrossRefs_first_fail (st : Storage) :
    ∀ pre (r : CrossReference) post,
      (∀ r' ∈ pre, ∃ lm, retrieveManifest st r'.manifest_url = .ok lm ∧
        manifestDigest lm = r'.manifest_hash) →
      (∀ lm, retrieveManifest st r.manifest_url = .ok lm →
        manifestDigest lm ≠ r.manifest_hash) →
      verifyCrossRefs st (pre ++ r :: post) =
        (match retrieveManifest st r.manifest_url with
         | .error e => .error e
         | .ok lm => .error (.validation (crossRefMismatchMsg r (manifestDigest lm)))) := by
  intro pre
  induction pre with
  | nil =>
    intro r post _ hfail
    rw [List.nil_append, verifyCrossRefs]
    cases hr : retrieveManifest st r.manifest_url with
    | error e => rfl
    | ok lm => simp [hfail lm hr]
  | cons r' pre' ih =>
    intro r post hpre hfail
    obtain ⟨lm', hret', hd'⟩ := hpre r' (List.mem_cons_self r' pre')
    rw [List.cons_append, verifyCrossRefs, hret']
    simp only [hd', ne_eq, not_true_eq_false, if_false, ite_false]
    exact ih r post (fun x hx => hpre x (List.mem_cons_of_mem r' hx)) hfail

/-- C2: cross-reference verification is fail-closed.  If every
cross-reference before `r` checks out and `r` either cannot be retrieved or
retrieves to a manifest whose canonical-JSON digest differs from the pinned
`manifest_hash`, `verify_manifest` returns the retrieval error respectively
the mismatch error naming `r`'s target, and in particular never `Ok`. -/
theorem crossref_fail_closed (fs : FS) (validate : Manifest → Except String Unit) (id : String)
    (st : Storage) (m : Manifest) (pre : List CrossReference) (r : CrossReference)
    (post : List CrossReference)
    (hret : retrieveManifest st id = .ok m)
    (hval : validate m = .ok ())
    (hing : verifyIngredients fs m.ingredients = .ok ())
    (hsplit : m.cross_references = pre ++ r :: post)
    (hpre : ∀ r' ∈ pre, ∃ lm, retrieveManifest st r'.manifest_url = .ok lm ∧
      manifestDigest lm = r'.manifest_hash)
    (hfail : ∀ lm, retrieveManifest st r.manifest_url = .ok lm →
      manifestDigest lm ≠ r.manifest_hash) :
    verify_manifest fs validate id st =
      (match retrieveManifest st r.manifest_url with
       | .error e => .error e
       | .ok lm => .error (.validation (crossRefMismatchMsg r (manifestDigest lm)))) ∧
    verify_manifest fs validate id st ≠ .ok () := by
  have h3 := verifyCrossRefs_first_fail st pre r post hpre hfail
  have hv : verify_manifest fs validate id st =
      (match retrieveManifest st r.manifest_url with
       | .error e => .error e
       | .ok lm => .error (.validation (crossRefMismatchMsg r (manifestDigest lm)))) := by
    simp only [verify_manifest, hret, hval, hing, hsplit, h3]
    cases hr : retrieveManifest st r.manifest_url <;> simp [hr]
  refine ⟨hv, ?_⟩
  rw [hv]
  cases hr : retrieveManifest st r.manifest_url <;> simp

/-- C2 witness: manifest A pins the digest of manifest B; after B is
mutated (title changed) and re-stored under the same id, verifying A fails
with the hash-mismatch error naming B. -/
theorem crossref_fail_closed_witness :
    verify_manifest fsW validateOk "A-id" stTampered =
      .error (.validation (crossRefMismatchMsg
        { manifest_url := "B-id", manifest_hash := manifestDigest manifestB,
          media_type := some "application/json" } (manifestDigest manifestB2))) :=
  Eq.trans
    ((crossref_fail_closed fsW validateOk "A-id" stTampered manifestA []
        { manifest_url := "B-id", manifest_hash := manifestDigest manifestB,
          media_type := some "application/json" } []
        rfl rfl rfl rfl (by simp)
        (by
          intro lm h
          have h0 : (Except.ok lm : Except Err Manifest) = .ok manifestB2 := h.symm.trans (by rfl)
          cases h0
          decide)).1)
    (by rfl)

/-- The reference scan, when every referenced manifest retrieves, returns
the accumulated flags extended by whether some reference classifies as the
probed kind string. -/
theorem evalRefScan_spec (st : Storage) :
    ∀ crs fm fd, (∀ r ∈ crs, ∃ rm, retrieveManifest st r.manifest_url = .ok rm) →
      evalRefScan st crs fm fd =
        .ok (fm || crs.any (fun r =>
               match retrieveManifest st r.manifest_url with
               | .ok rm => manifest_type_to_str (determine_manifest_type rm) == "Model"
               | .error _ => false),
             fd || crs.any (fun r =>
               match retrieveManifest st r.manifest_url with
               | .ok rm => manifest_type_to_str (determine_manifest_type rm) == "Dataset"
               | .error _ => false)) := by
  intro crs
  induction crs with
  | nil => intro fm fd _; simp [evalRefScan]
  | cons r rest ih =>
    intro fm fd hall
    obtain ⟨rm, hrm⟩ := hall r (List.mem_cons_self r rest)
    simp only [evalRefScan, hrm]
    rw [ih _ _ (fun x hx => hall x (List.mem_cons_of_mem r hx))]
    simp [hrm, Bool.or_assoc]

/-- A scan predicate holds for some list element iff some retrievable
reference classifies as the probed kind. -/
theorem any_ref_classified_iff (st : Storage) (crs : List CrossReference) (ty : ManifestType)
    (s : String) (hs : ∀ t, (manifest_type_to_str t == s) = true ↔ t = ty) :
    (crs.any (fun r =>
       match retrieveManifest st r.manifest_url with
       | .ok rm => manifest_type_to_str (determine_manifest_type rm) == s
       | .error _ => false) = true) ↔
    ∃ r ∈ crs, ∃ rm, retrieveManifest st r.manifest_url = .ok rm ∧
      determine_manifest_type rm = ty := by
  rw [List.any_eq_true]
  constructor
  · rintro ⟨r, hr, hp⟩
    cases hretr : retrieveManifest st r.manifest_url with
    | error e => rw [hretr] at hp; cases hp
    | ok rm =>
      rw [hretr] at hp
      exact ⟨r, hr, rm, hretr, (hs _).mp hp⟩
  · rintro ⟨r, hr, rm, hretr, hty⟩
    refine ⟨r, hr, ?_⟩
    rw [hretr]
    exact (hs _).mpr hty

/-- C6: evaluation completeness at verification.  For a stored manifest
that passes common verification, is an evaluation manifest, and all of
whose cross-references retrieve: `verify_evaluation_manifest` succeeds
exactly when some referenced manifest classifies as Model and some as
Dataset; with no Model-classified reference it fails naming the missing
model reference; with a Model- but no Dataset-classified reference it fails
naming the missing dataset reference. -/
theorem evaluation_completeness (fs : FS) (validate : Manifest → Except String Unit)
    (id : String) (st : Storage) (m : Manifest)
    (hret : retrieveManifest st id = .ok m)
    (hcommon : verify_manifest fs validate id st = .ok ())
    (heval : is_evaluation_manifest m = true)
    (hall : ∀ r ∈ m.cross_references, ∃ rm, retrieveManifest st r.manifest_url = .ok rm) :
    (verify_evaluation_manifest fs validate id st = .ok () ↔
       ((∃ r ∈ m.cross_references, ∃ rm, retrieveManifest st r.manifest_url = .ok rm ∧
           determine_manifest_type rm = .model) ∧
        (∃ r ∈ m.cross_references, ∃ rm, retrieveManifest st r.manifest_url = .ok rm ∧
           determine_manifest_type rm = .dataset))) ∧
    ((¬ ∃ r ∈ m.cross_references, ∃ rm, retrieveManifest st r.manifest_url = .ok rm ∧
        determine_manifest_type rm = .model) →
      verify_evaluation_manifest fs validate id st =
        .error (.validation "Evaluation manifest must reference a model")) ∧
    (((∃ r ∈ m.cross_references, ∃ rm, retrieveManifest st r.manifest_url = .ok rm ∧
         determine_manifest_type rm = .model) ∧
      ¬ ∃ r ∈ m.cross_references, ∃ rm, retrieveManifest st r.manifest_url = .ok rm ∧
         determine_manifest_type rm = .dataset) →
      verify_evaluation_manifest fs validate id st =
        .error (.validation "Evaluation manifest must reference a dataset")) := by
  have hmodel := any_ref_classified_iff st m.cross_references .model "Model"
    (by intro t; cases t <;> decide)
  have hdataset := any_ref_classified_iff st m.cross_references .dataset "Dataset"
    (by intro t; cases t <;> decide)
  have hve : verify_evaluation_manifest fs validate id st =
      (if m.cross_references.any (fun r =>
            match retrieveManifest st r.manifest_url with
            | .ok rm => manifest_type_to_str (determine_manifest_type rm) == "Model"
            | .error _ => false) then
         (if m.cross_references.any (fun r =>
               match retrieveManifest st r.manifest_url with
               | .ok rm => manifest_type_to_str (determine_manifest_type rm) == "Dataset"
               | .error _ => false) then .ok ()
          else .error (.validation "Evaluation manifest must reference a dataset"))
       else .error (.validation "Evaluation manifest must reference a model")) := by
    simp only [verify_evaluation_manifest, hcommon, hret, heval,
      evalRefScan_spec st m.cross_references false false hall, Bool.false_or]
    cases hm : m.cross_references.any (fun r =>
        match retrieveManifest st r.manifest_url with
        | .ok rm => manifest_type_to_str (determine_manifest_type rm) == "Model"
        | .error _ => false) <;>
      cases hd : m.cross_references.any (fun r =>
          match retrieveManifest st r.manifest_url with
          | .ok rm => manifest_type_to_str (determine_manifest_type rm) == "Dataset"
          | .error _ => false) <;>
      simp [hm, hd]
  rw [hve]
  rw [← hmodel, ← hdataset]
  cases hm : m.cross_references.any (fun r =>
      match retrieveManifest st r.manifest_url with
      | .ok rm => manifest_type_to_str (determine_manifest_type rm) == "Model"
      | .error _ => false) <;>
    cases hd : m.cross_references.any (fun r =>
        match retrieveManifest st r.manifest_url with
        | .ok rm => manifest_type_to_str (determine_manifest_type rm) == "Dataset"
        | .error _ => false) <;>
    simp [hm, hd]

/-- C6 witness: a stored evaluation manifest that passes common
verification but whose only cross-reference classifies as Dataset fails
evaluation verification naming the missing model reference. -/
theorem evaluation_completeness_witness :
    verify_evaluation_manifest fsW validateOk "EV-id" stEval =
      .error (.validation "Evaluation manifest must reference a model") :=
  (evaluation_completeness fsW validateOk "EV-id" stEval mEval rfl (by decide) rfl
      (by
        intro r hr
        rw [show mEval.cross_references =
          [{ manifest_url := "D-id", manifest_hash := manifestDigest mDataset,
             media_type := some "application/json" }] from rfl] at hr
        rw [List.mem_singleton] at hr
        subst hr
        exact ⟨mDataset, rfl⟩)).2.1
    (by
      rintro ⟨r, hr, rm, hrm, hty⟩
      rw [show mEval.cross_references =
        [{ manifest_url := "D-id", manifest_hash := manifestDigest mDataset,
           media_type := some "application/json" }] from rfl] at hr
      rw [List.mem_singleton] at hr
      subst hr
      have h0 : (Except.ok rm : Except Err Manifest) = .ok mDataset := hrm.symm.trans (by rfl)
      cases h0
      exact absurd hty (by decide))

/-- C7: best-effort linking at creation.  With a storage backend and a list
of linked-manifest ids, once ingredients, assertions and the signed claim
are built, manifest assembly always succeeds — its cross-references are
exactly the successful retrievals (each pinning the canonical-JSON digest
of the retrieved manifest), failed retrievals are skipped without failing
the call, and the manifest is still stored. -/
theorem best_effort_linking (env : Env) (config : ManifestCreationConfig) (kind : AssetKind)
    (oracle : Oracle) (st : Storage) (ids : List String) (ings : List Ingredient)
    (asserts : List Assertion) (sc : ClaimV2)
    (hst : config.storage = some st)
    (hids : config.linked_manifests = some ids)
    (hpr : config.print = false)
    (hing : mkIngredients env.fs kind oracle (config.paths.zip config.ingredient_names) 0 = .ok ings)
    (hass : mkAssertions env config kind = .ok asserts)
    (hsig : mkSignedClaim env config (unsignedClaimOf oracle ings asserts) = .ok sc) :
    buildManifest env config kind oracle =
      .ok (manifestAssembled config oracle ings sc (ids.filterMap (linkOne st))) ∧
    create_manifest env config kind oracle =
      (.ok (), some (storeManifest st
        (manifestAssembled config oracle ings sc (ids.filterMap (linkOne st))))) ∧
    (∀ lid lm, retrieveManifest st lid = .ok lm →
      linkOne st lid = some ⟨lid, manifestDigest lm, some "application/json"⟩) ∧
    (∀ lid e, retrieveManifest st lid = .error e → linkOne st lid = none) := by
  have hcr : mkCrossRefs config = ids.filterMap (linkOne st) := by
    rw [mkCrossRefs, hids, hst]
  have hb : buildManifest env config kind oracle =
      .ok (manifestAssembled config oracle ings sc (ids.filterMap (linkOne st))) := by
    simp only [buildManifest, hing, hass, hsig, hcr]
  refine ⟨hb, ?_, ?_, ?_⟩
  · simp only [create_manifest, hb, outputCheck, hpr, hst, Option.isNone_some, Bool.or_self,
      Bool.false_eq_true, if_false, ite_false]
  · intro lid lm h
    simp [linkOne, h]
  · intro lid e h
    simp [linkOne, h]

/-- C7 witness: of the two requested links, the stored one is embedded with
its digest and the missing one is skipped; the manifest is still created
and stored. -/
theorem best_effort_linking_witness :
    create_manifest envW cfgW .model oracleW =
      (.ok (), some (storeManifest stW (manifestAssembled cfgW oracleW ingsW claimW
        (["B-id", "missing-id"].filterMap (linkOne stW))))) ∧
    linkOne stW "missing-id" = none ∧
    linkOne stW "B-id" = some ⟨"B-id", manifestDigest manifestB, some "application/json"⟩ :=
  ⟨(best_effort_linking envW cfgW .model oracleW stW ["B-id", "missing-id"] ingsW assertsW claimW
      rfl rfl rfl (by rfl) (by rfl) (by rfl)).2.1,
   (best_effort_linking envW cfgW .model oracleW stW ["B-id", "missing-id"] ingsW assertsW claimW
      rfl rfl rfl (by rfl) (by rfl) (by rfl)).2.2.2 "missing-id"
     (.storage "Manifest not found: missing-id") (by rfl),
   (best_effort_linking envW cfgW .model oracleW stW ["B-id", "missing-id"] ingsW assertsW claimW
      rfl rfl rfl (by rfl) (by rfl) (by rfl)).2.2.1 "B-id" manifestB (by rfl)⟩

/-- C3: the signature excludes itself from the signed payload.  For every
assembled manifest, the claim sits identically in both slots; when a key
was supplied, the stored signature is the base64 encoding of a signature
over the CBOR serialization of the claim with its `signature` field unset
and all other fields already final; with no key, the signature is absent. -/
theorem signature_excludes_itself (env : Env) (config : ManifestCreationConfig)
    (kind : AssetKind) (oracle : Oracle) (m : Manifest) (c : ClaimV2)
    (hbuild : buildManifest env config kind oracle = .ok m)
    (hc : m.claim_v2 = some c) :
    m.claim = c ∧
    (∀ kf, config.key_path = some kf →
      ∃ key sig, env.loadKey kf = .ok key ∧
        env.signData (env.cborClaim { c with signature := none }) key config.hash_alg = .ok sig ∧
        c.signature = some (base64Encode sig)) ∧
    (config.key_path = none → c.signature = none) := by
  rw [buildManifest] at hbuild
  split at hbuild
  · cases hbuild
  · split at hbuild
    · cases hbuild
    · split at hbuild
      · cases hbuild
      · rename_i claim hsc
        cases hbuild
        rw [show (manifestAssembled config oracle _ claim (mkCrossRefs config)).claim_v2 =
          some claim from rfl] at hc
        cases hc
        refine ⟨rfl, ?_, ?_⟩
        · intro kf hkf
          simp only [mkSignedClaim, hkf] at hsc
          split at hsc
          · cases hsc
          · rename_i key hkey
            split at hsc
            · cases hsc
            · rename_i sig hsd
              cases hsc
              exact ⟨key, sig, hkey, hsd, rfl⟩
        · intro hkf
          simp only [mkSignedClaim, hkf] at hsc
          cases hsc
          rfl

/-- C3 witness: on the concrete signing run, the claim in both slots
carries a signature that is the base64 signature of the CBOR form of the
claim with its signature field cleared. -/
theorem signature_excludes_itself_witness :
    mSign.claim = cSign ∧
    ∃ key sig, envW.loadKey "key.pem" = .ok key ∧
      envW.signData (envW.cborClaim { cSign with signature := none }) key cfgSign.hash_alg =
        .ok sig ∧
      cSign.signature = some (base64Encode sig) :=
  ⟨(signature_excludes_itself envW cfgSign .model oracleW mSign cSign (by rfl) (by rfl)).1,
   (signature_excludes_itself envW cfgSign .model oracleW mSign cSign (by rfl) (by rfl)).2.1
     "key.pem" rfl⟩

/-- Retrieving the just-stored manifest by its id returns it (last write
wins). -/
theorem retrieveManifest_store_self (st : Storage) (m : Manifest) :
    retrieveManifest (storeManifest st m) m.instance_id = .ok m := by
  simp [retrieveManifest, storeManifest, List.lookup]

/-- Retrieval of any other id is unaffected by a store. -/
theorem retrieveManifest_store_other (st : Storage) (m : Manifest) (id : String)
    (h : id ≠ m.instance_id) :
    retrieveManifest (storeManifest st m) id = retrieveManifest st id := by
  have hb : (id == m.instance_id) = false := beq_eq_false_iff_ne.mpr h
  simp [retrieveManifest, storeManifest, List.lookup, hb]

/-- Every ingredient built by the creation loop records its source path as
URL, the whole-file digest of that path's content as hash, and the single
kind-resolved asset tag. -/
theorem mkIngredients_mem (fs : FS) (kind : AssetKind) (oracle : Oracle) :
    ∀ pairs i ings, mkIngredients fs kind oracle pairs i = .ok ings →
      ∀ ing ∈ ings, ∃ p nm e t, (p, nm) ∈ pairs ∧ fs p = some e ∧
        ing.data.url = p ∧ ing.data.hash = calculate_hash e.content ∧
        ing.data.data_types = [t] ∧ assetTypeFor kind p = .ok t := by
  intro pairs
  induction pairs with
  | nil =>
    intro i ings h
    rw [mkIngredients] at h
    cases h
    intro ing hing
    cases hing
  | cons pr rest ih =>
    intro i ings h
    obtain ⟨p, nm⟩ := pr
    rw [mkIngredients] at h
    split at h
    · cases h
    · split at h
      · cases h
      · rename_i t hat
        split at h
        · cases h
        · rename_i ing0 hing0
          split at h
          · cases h
          · rename_i ings0 hings0
            cases h
            intro ing hing
            rcases List.mem_cons.mp hing with hh | ht
            · subst hh
              rw [create_ingredient_from_path] at hing0
              split at hing0
              · cases hing0
              · rename_i hv hfsp
                cases hing0
                rename_i format hfmt
                cases hfs2 : fs p with
                | none => rw [hash_calculate_file_hash, hfs2] at hfsp; cases hfsp
                | some e =>
                  rw [hash_calculate_file_hash, hfs2] at hfsp
                  cases hfsp
                  exact ⟨p, nm, e, t, List.mem_cons_self _ _, hfs2, rfl, rfl, rfl, hat⟩
            · obtain ⟨p', nm', e', t', hmem, rest'⟩ := ih (i + 1) ings0 hings0 ing ht
              exact ⟨p', nm', e', t', List.mem_cons_of_mem _ hmem, rest'⟩

/-- A nonempty pair list yields a nonempty ingredient list. -/
theorem mkIngredients_ne_nil (fs : FS) (kind : AssetKind) (oracle : Oracle)
    (pairs : List (String × String)) (i : Nat) (ings : List Ingredient)
    (h : mkIngredients fs kind oracle pairs i = .ok ings) (hp : pairs ≠ []) : ings ≠ [] := by
  cases pairs with
  | nil => exact absurd rfl hp
  | cons pr rest =>
    obtain ⟨p, nm⟩ := pr
    rw [mkIngredients] at h
    split at h
    · cases h
    · split at h
      · cases h
      · split at h
        · cases h
        · split at h
          · cases h
          · cases h
            simp

/-- Stage 2 accepts an ingredient whose URL is a plain path of an
unchanged readable file whose stored hash is the whole-file digest. -/
theorem verifyIngredient_created (fs : FS) (ing : Ingredient) (e : FileEntry)
    (hurl : hasLeading "file://" ing.data.url = false)
    (hfs : fs ing.data.url = some e)
    (hhash : ing.data.hash = calculate_hash e.content) :
    verifyIngredient fs ing = .ok () := by
  have hch : hexEncode (sha256 (chunkList 8192 e.content).flatten) = ing.data.hash := by
    rw [chunkList_flatten 8192 (by decide) e.content, hhash]
    rfl
  rw [verifyIngredient, hurl]
  simp only [Bool.false_eq_true, if_false, ite_false]
  rw [utils_calculate_file_hash, hfs]
  cases hsym : e.isSymlink
  · by_cases hnl : e.nlink > 1
    · simp [hsym, hnl]
    · simp [hsym, hnl, hch]
  · simp [hsym]

/-- Stage 2 passes when it passes on every ingredient. -/
theorem verifyIngredients_all (fs : FS) :
    ∀ ings, (∀ ing ∈ ings, verifyIngredient fs ing = .ok ()) →
      verifyIngredients fs ings = .ok () := by
  intro ings
  induction ings with
  | nil => intro _; rfl
  | cons ing rest ih =>
    intro h
    rw [verifyIngredients, h ing (List.mem_cons_self ing rest)]
    exact ih (fun x hx => h x (List.mem_cons_of_mem ing hx))

/-- Stage 3 passes when every cross-reference retrieves to a manifest whose
canonical-JSON digest matches the pinned hash. -/
theorem verifyCrossRefs_all (st : Storage) :
    ∀ crs, (∀ r ∈ crs, ∃ lm, retrieveManifest st r.manifest_url = .ok lm ∧
      manifestDigest lm = r.manifest_hash) → verifyCrossRefs st crs = .ok () := by
  intro crs
  induction crs with
  | nil => intro _; rfl
  | cons r rest ih =>
    intro h
    obtain ⟨lm, hret, hd⟩ := h r (List.mem_cons_self r rest)
    rw [verifyCrossRefs, hret]
    simp only [hd, ne_eq, not_true_eq_false, if_false, ite_false]
    exact ih (fun x hx => h x (List.mem_cons_of_mem r hx))

/-- Every cross-reference assembled at creation pins the digest of a
manifest retrievable from the linking-time storage. -/
theorem mkCrossRefs_spec (config : ManifestCreationConfig) (st : Storage)
    (hst : config.storage = some st) :
    ∀ r ∈ mkCrossRefs config, ∃ lm, retrieveManifest st r.manifest_url = .ok lm ∧
      manifestDigest lm = r.manifest_hash := by
  cases hl : config.linked_manifests with
  | none => simp [mkCrossRefs, hl]
  | some ids =>
    rw [mkCrossRefs, hl, hst]
    intro r hr
    obtain ⟨lid, _, hlk⟩ := List.mem_filterMap.mp hr
    rw [linkOne] at hlk
    cases hretr : retrieveManifest st lid with
    | error e => rw [hretr] at hlk; cases hlk
    | ok lm =>
      rw [hretr] at hlk
      cases hlk
      exact ⟨lm, hretr, rfl⟩

/-- Model classification never yields a dataset-family or generator tag. -/
theorem determine_model_type_tags (p : String) (t : AssetType)
    (h : determine_model_type p = .ok t) :
    isDatasetFamily t = false ∧ isGeneratorTag t = false := by
  rw [determine_model_type] at h
  split at h <;> cases h <;> decide

/-- Dataset classification never yields a model-family or generator tag. -/
theorem determine_dataset_type_tags (p : String) (t : AssetType)
    (h : determine_dataset_type p = .ok t) :
    isModelFamily t = false ∧ isGeneratorTag t = false := by
  rw [determine_dataset_type] at h
  split at h <;> cases h <;> decide

/-- No ingredient carries a tag satisfying `p` when every ingredient's
single tag falsifies `p`. -/
theorem tags_any_false (ings : List Ingredient) (p : AssetType → Bool)
    (h : ∀ ing ∈ ings, ∃ t, ing.data.data_types = [t] ∧ p t = false) :
    ings.any (fun i => i.data.data_types.any p) = false := by
  rw [List.any_eq_false]
  intro i hi
  obtain ⟨t, h1, h2⟩ := h i hi
  simp [h1, h2]

/-- The assertions of a created claim: any creative-work probe answers
exactly the kind's creative type, and a `software_type` action parameter is
present exactly when the kind's parameter object carries that key. -/
theorem mkAssertions_any (env : Env) (config : ManifestCreationConfig) (kind : AssetKind)
    (asserts : List Assertion) (h : mkAssertions env config kind = .ok asserts) :
    (∀ t, asserts.any (isCreativeOfType t) = ((creativeAndSource kind).1 == t)) ∧
    asserts.any hasSoftwareTypeParam = ((paramsFor kind config).get "software_type").isSome := by
  rw [mkAssertions] at h
  by_cases hcc : config.with_cc
  · rw [if_pos hcc] at h
    cases hatt : env.ccAttestation with
    | error e => rw [hatt] at h; cases h
    | ok pr =>
      obtain ⟨platform, report⟩ := pr
      simp only [hatt] at h
      cases h
      constructor
      · intro t
        simp [isCreativeOfType]
      · simp [hasSoftwareTypeParam]
  · rw [if_neg hcc] at h
    cases h
    constructor
    · intro t
      simp [isCreativeOfType]
    · simp [hasSoftwareTypeParam]

/-- For every kind other than software, the assembled action parameters
carry no `software_type` key. -/
theorem paramsFor_soft_none (config : ManifestCreationConfig) (kind : AssetKind)
    (hk : kind ≠ .software) : (paramsFor kind config).get "software_type" = none := by
  cases kind with
  | software => exact absurd rfl hk
  | model => rfl
  | dataset => rfl
  | evaluation =>
    rw [paramsFor]
    cases config.custom_fields with
    | none => rfl
    | some cf =>
      cases hev : cf.get "evaluation" with
      | none =>
        simp only [hev]
        rfl
      | some ev =>
        simp only [hev]
        rfl

/-- Signing never alters the claim's assertions. -/
theorem mkSignedClaim_assertions (env : Env) (config : ManifestCreationConfig)
    (u c : ClaimV2) (h : mkSignedClaim env config u = .ok c) :
    c.created_assertions = u.created_assertions := by
  rw [mkSignedClaim] at h
  split at h
  · cases h; rfl
  · split at h
    · cases h
    · split at h
      · cases h
      · cases h; rfl

/-- Stage 4 accepts every manifest assembled by creation: the kind's own
creative-work assertion is present in `claim_v2`, and no other kind's check
fires. -/
theorem stage4_created (config : ManifestCreationConfig) (oracle : Oracle) (kind : AssetKind)
    (ings : List Ingredient) (claim : ClaimV2) (crs : List CrossReference)
    (hca : ∀ t, claim.created_assertions.any (isCreativeOfType t) =
      ((creativeAndSource kind).1 == t))
    (hsp : claim.created_assertions.any hasSoftwareTypeParam =
      ((paramsFor kind config).get "software_type").isSome)
    (hne : kind ≠ .evaluation → ings ≠ [])
    (htags : ∀ ing ∈ ings, ∃ t, ing.data.data_types = [t] ∧
      assetTypeFor kind ing.data.url = .ok t) :
    verify_asset_specific_requirements (manifestAssembled config oracle ings claim crs) =
      .ok () := by
  cases kind with
  | model =>
    have hIE : ings.isEmpty = false := by
      cases hi : ings.isEmpty
      · rfl
      · exact absurd (List.isEmpty_iff.mp hi) (hne (by decide))
    have hDing : ings.any (fun i => i.data.data_types.any isDatasetFamily) = false := by
      refine tags_any_false ings isDatasetFamily ?_
      intro ing hing
      obtain ⟨t, hdt, hat⟩ := htags ing hing
      exact ⟨t, hdt, (determine_model_type_tags _ t hat).1⟩
    have hDas : claim.created_assertions.any (isCreativeOfType "Dataset") = false := by
      rw [hca "Dataset"]
      rfl
    have hEas : claim.created_assertions.any (isCreativeOfType "EvaluationResult") = false := by
      rw [hca "EvaluationResult"]
      rfl
    have hSas : claim.created_assertions.any (isCreativeOfType "Software") = false := by
      rw [hca "Software"]
      rfl
    have hMas : claim.created_assertions.any (isCreativeOfType "Model") = true := by
      rw [hca "Model"]
      rfl
    have hGing : ings.any (fun i => i.data.data_types.any isGeneratorTag) = false := by
      refine tags_any_false ings isGeneratorTag ?_
      intro ing hing
      obtain ⟨t, hdt, hat⟩ := htags ing hing
      exact ⟨t, hdt, (determine_model_type_tags _ t hat).2⟩
    have hSpar : claim.created_assertions.any hasSoftwareTypeParam = false := by
      rw [hsp, paramsFor_soft_none config .model (by decide)]
      rfl
    simp [verify_asset_specific_requirements, is_dataset_manifest, is_model_manifest,
      is_software_manifest, is_evaluation_manifest, manifestAssembled, hasIngredientTag,
      hIE, hDing, hDas, hEas, hSas, hMas, hGing, hSpar]
  | dataset =>
    have hIE : ings.isEmpty = false := by
      cases hi : ings.isEmpty
      · rfl
      · exact absurd (List.isEmpty_iff.mp hi) (hne (by decide))
    have hMing : ings.any (fun i => i.data.data_types.any isModelFamily) = false := by
      refine tags_any_false ings isModelFamily ?_
      intro ing hing
      obtain ⟨t, hdt, hat⟩ := htags ing hing
      exact ⟨t, hdt, (determine_dataset_type_tags _ t hat).1⟩
    have hGing : ings.any (fun i => i.data.data_types.any isGeneratorTag) = false := by
      refine tags_any_false ings isGeneratorTag ?_
      intro ing hing
      obtain ⟨t, hdt, hat⟩ := htags ing hing
      exact ⟨t, hdt, (determine_dataset_type_tags _ t hat).2⟩
    have hDas : claim.created_assertions.any (isCreativeOfType "Dataset") = true := by
      rw [hca "Dataset"]
      rfl
    have hMas : claim.created_assertions.any (isCreativeOfType "Model") = false := by
      rw [hca "Model"]
      rfl
    have hSas : claim.created_assertions.any (isCreativeOfType "Software") = false := by
      rw [hca "Software"]
      rfl
    have hEas : claim.created_assertions.any (isCreativeOfType "EvaluationResult") = false := by
      rw [hca "EvaluationResult"]
      rfl
    have hSpar : claim.created_assertions.any hasSoftwareTypeParam = false := by
      rw [hsp, paramsFor_soft_none config .dataset (by decide)]
      rfl
    simp [verify_asset_specific_requirements, is_dataset_manifest, is_model_manifest,
      is_software_manifest, is_evaluation_manifest, manifestAssembled, hasIngredientTag,
      hIE, hMing, hGing, hDas, hMas, hSas, hEas, hSpar]
  | software =>
    have hIE : ings.isEmpty = false := by
      cases hi : ings.isEmpty
      · rfl
      · exact absurd (List.isEmpty_iff.mp hi) (hne (by decide))
    have htg : ∀ ing ∈ ings, ∃ t, ing.data.data_types = [t] ∧ t = AssetType.generator := by
      intro ing hing
      obtain ⟨t, hdt, hat⟩ := htags ing hing
      rw [show assetTypeFor AssetKind.software ing.data.url = .ok AssetType.generator from rfl]
        at hat
      cases hat
      exact ⟨_, hdt, rfl⟩
    have hDing : ings.any (fun i => i.data.data_types.any isDatasetFamily) = false := by
      refine tags_any_false ings isDatasetFamily ?_
      intro ing hing
      obtain ⟨t, hdt, ht⟩ := htg ing hing
      subst ht
      exact ⟨_, hdt, rfl⟩
    have hMing : ings.any (fun i => i.data.data_types.any isModelFamily) = false := by
      refine tags_any_false ings isModelFamily ?_
      intro ing hing
      obtain ⟨t, hdt, ht⟩ := htg ing hing
      subst ht
      exact ⟨_, hdt, rfl⟩
    have hSas : claim.created_assertions.any (isCreativeOfType "Software") = true := by
      rw [hca "Software"]
      rfl
    have hDas : claim.created_assertions.any (isCreativeOfType "Dataset") = false := by
      rw [hca "Dataset"]
      rfl
    have hMas : claim.created_assertions.any (isCreativeOfType "Model") = false := by
      rw [hca "Model"]
      rfl
    have hEas : claim.created_assertions.any (isCreativeOfType "EvaluationResult") = false := by
      rw [hca "EvaluationResult"]
      rfl
    simp [verify_asset_specific_requirements, is_dataset_manifest, is_model_manifest,
      is_software_manifest, is_evaluation_manifest, manifestAssembled, hasIngredientTag,
      hIE, hDing, hMing, hSas, hDas, hMas, hEas]
  | evaluation =>
    have htg : ∀ ing ∈ ings, ∃ t, ing.data.data_types = [t] ∧ t = AssetType.dataset := by
      intro ing hing
      obtain ⟨t, hdt, hat⟩ := htags ing hing
      rw [show assetTypeFor AssetKind.evaluation ing.data.url = .ok AssetType.dataset from rfl]
        at hat
      cases hat
      exact ⟨_, hdt, rfl⟩
    have hMing : ings.any (fun i => i.data.data_types.any isModelFamily) = false := by
      refine tags_any_false ings isModelFamily ?_
      intro ing hing
      obtain ⟨t, hdt, ht⟩ := htg ing hing
      subst ht
      exact ⟨_, hdt, rfl⟩
    have hGing : ings.any (fun i => i.data.data_types.any isGeneratorTag) = false := by
      refine tags_any_false ings isGeneratorTag ?_
      intro ing hing
      obtain ⟨t, hdt, ht⟩ := htg ing hing
      subst ht
      exact ⟨_, hdt, rfl⟩
    have hEas : claim.created_assertions.any (isCreativeOfType "EvaluationResult") = true := by
      rw [hca "EvaluationResult"]
      rfl
    have hMas : claim.created_assertions.any (isCreativeOfType "Model") = false := by
      rw [hca "Model"]
      rfl
    have hSas : claim.created_assertions.any (isCreativeOfType "Software") = false := by
      rw [hca "Software"]
      rfl
    have hSpar : claim.created_assertions.any hasSoftwareTypeParam = false := by
      rw [hsp, paramsFor_soft_none config .evaluation (by decide)]
      rfl
    simp [verify_asset_specific_requirements, is_dataset_manifest, is_model_manifest,
      is_software_manifest, is_evaluation_manifest, manifestAssembled, hasIngredientTag,
      hMing, hGing, hEas, hMas, hSas, hSpar]
/-- C1 amended: round-trip of creation and verification.  Every manifest
assembled by `create_manifest` from readable source files — at least one
file unless the kind is Evaluation, and no path spelled with a leading
`file://` — with a storage backend configured and printing off, is stored,
and verifying it immediately afterwards (files and cross-referenced
manifests unchanged, the external structural validator accepting, the fresh
manifest id distinct from every linked id) passes all four stages and
returns `Ok`. -/
theorem round_trip (env : Env) (config : ManifestCreationConfig) (kind : AssetKind)
    (oracle : Oracle) (st : Storage) (m : Manifest) (validate : Manifest → Except String Unit)
    (hst : config.storage = some st)
    (hpr : config.print = false)
    (hbuild : buildManifest env config kind oracle = .ok m)
    (hzip : config.paths.zip config.ingredient_names = [] → kind = .evaluation)
    (hfiles : ∀ p ∈ config.paths, hasLeading "file://" p = false)
    (hvalid : validate m = .ok ())
    (hfresh : ∀ r ∈ m.cross_references, r.manifest_url ≠ m.instance_id) :
    create_manifest env config kind oracle = (.ok (), some (storeManifest st m)) ∧
    verify_manifest env.fs validate m.instance_id (storeManifest st m) = .ok () := by
  rw [buildManifest] at hbuild
  split at hbuild
  · cases hbuild
  · rename_i ings hings
    split at hbuild
    · cases hbuild
    · rename_i asserts hass
      split at hbuild
      · cases hbuild
      · rename_i claim hsc
        cases hbuild
        have hb : buildManifest env config kind oracle =
            .ok (manifestAssembled config oracle ings claim (mkCrossRefs config)) := by
          simp only [buildManifest, hings, hass, hsc]
        have hcass : claim.created_assertions = asserts := by
          rw [mkSignedClaim_assertions env config _ claim hsc]
          rfl
        have hca : ∀ t, claim.created_assertions.any (isCreativeOfType t) =
            ((creativeAndSource kind).1 == t) := by
          intro t
          rw [hcass]
          exact (mkAssertions_any env config kind asserts hass).1 t
        have hsp : claim.created_assertions.any hasSoftwareTypeParam =
            ((paramsFor kind config).get "software_type").isSome := by
          rw [hcass]
          exact (mkAssertions_any env config kind asserts hass).2
        have hnei : kind ≠ .evaluation → ings ≠ [] := by
          intro hk
          refine mkIngredients_ne_nil env.fs kind oracle _ 0 ings hings ?_
          intro hz
          exact hk (hzip hz)
        have htags : ∀ ing ∈ ings, ∃ t, ing.data.data_types = [t] ∧
            assetTypeFor kind ing.data.url = .ok t := by
          intro ing hing
          obtain ⟨p, nm, e, t, hmem, hfs, hurl, hhash, hdt, hat⟩ :=
            mkIngredients_mem env.fs kind oracle _ 0 ings hings ing hing
          exact ⟨t, hdt, by rw [hurl]; exact hat⟩
        have hstage2 : verifyIngredients env.fs ings = .ok () := by
          refine verifyIngredients_all env.fs ings ?_
          intro ing hing
          obtain ⟨p, nm, e, t, hmem, hfs, hurl, hhash, hdt, hat⟩ :=
            mkIngredients_mem env.fs kind oracle _ 0 ings hings ing hing
          have hp : p ∈ config.paths := (List.of_mem_zip hmem).1
          refine verifyIngredient_created env.fs ing e ?_ ?_ hhash
          · rw [hurl]
            exact hfiles p hp
          · rw [hurl]
            exact hfs
        have hstage3 : verifyCrossRefs
            (storeManifest st (manifestAssembled config oracle ings claim (mkCrossRefs config)))
            (mkCrossRefs config) = .ok () := by
          refine verifyCrossRefs_all _ _ ?_
          intro r hr
          obtain ⟨lm, hret, hd⟩ := mkCrossRefs_spec config st hst r hr
          refine ⟨lm, ?_, hd⟩
          rw [retrieveManifest_store_other st _ r.manifest_url (hfresh r hr)]
          exact hret
        have hstage4 : verify_asset_specific_requirements
            (manifestAssembled config oracle ings claim (mkCrossRefs config)) = .ok () :=
          stage4_created config oracle kind ings claim (mkCrossRefs config) hca hsp hnei htags
        constructor
        · simp only [create_manifest, hb, outputCheck, hpr, hst, Option.isNone_some,
            Bool.or_self, Bool.false_eq_true, if_false, ite_false]
        · rw [verify_manifest]
          rw [retrieveManifest_store_self st
            (manifestAssembled config oracle ings claim (mkCrossRefs config))]
          simp only [manifestAssembled] at hvalid hstage3 hstage4 ⊢
          simp only [hvalid, hstage2, hstage3, hstage4]

/-- C1 counterexample: a manifest successfully created (and stored) by
`create_manifest` from an empty set of source files with kind Model fails
verification at stage 4, even though nothing changed between creation and
verification and the structural validator accepts everything — so the
round trip does not hold for every created manifest. -/
theorem round_trip_empty_counterexample :
    (create_manifest envW cfgEmpty .model oracleW).1 = .ok () ∧
    verify_manifest fsW validateOk "urn:c2pa:manifest-0" stEmpty =
      .error (.validation "Manifest must contain at least one ingredient") := by
  constructor
  · decide
  · decide

/-- C1 witness: the amended round trip on a concrete run — one model file,
one successful link and one skipped link, stored and then verified with all
four stages passing. -/
theorem round_trip_witness :
    create_manifest envW cfgW .model oracleW = (.ok (), some (storeManifest stW mW)) ∧
    verify_manifest envW.fs validateOk mW.instance_id (storeManifest stW mW) = .ok () :=
  round_trip envW cfgW .model oracleW stW mW validateOk rfl rfl (by rfl)
    (by intro h; exact absurd h (by decide)) (by decide) (by rfl) (by decide)

end AtlasCli
